import Mathlib

/-!
Shallow embedding of the CogniCare backend (be-cognicare) controller logic,
together with theorems settling the specification claims about it.

Conventions of the embedding:
* Database rows are Lean structures; tables are lists inside a `DB` record.
  Record ids are `Nat` (the source uses opaque cuid strings; only equality is
  ever used on them).  Timestamps are `Int` milliseconds since the epoch, the
  value `Date.getTime()` exposes in the source.
* Prisma `findUnique` / `findFirst` become `List.find?`, `findMany` becomes
  `List.filter` (plus `List.insertionSort` where the source orders results),
  `count` becomes `List.length ∘ List.filter`, `update`/`updateMany` become
  `List.map`, and `create` appends to the table, with the fresh id supplied as
  an explicit argument.
* A Prisma relation filter such as `clinic: { organizationId: X }` holds when
  the related row exists and matches, hence `List.any` over the related table.
* Each handler returns an `ApiResult` (HTTP status + message on the error
  path, payload on the success path) and, when it writes, the updated `DB`.
  `res.status(sc).json({error})` becomes `.err sc msg`.
* Row fields that the modelled handlers only copy through without reading
  (e.g. patient address, blood group, appointment notes, backup urls) are
  omitted from the structures; every field that some modelled branch reads or
  writes is present.
* The express handlers wrap their body in `try/catch`; the only `throw` a
  modelled branch can hit is the property access on a `null` caller row, so
  that case is mapped to the handler's catch-block response.
-/

/-- Role enum of the `User` model (`ADMIN | DOCTOR | STAFF`). -/
inductive Role where
  | ADMIN
  | DOCTOR
  | STAFF
deriving Repr, DecidableEq

/-- Appointment status enum
(`SCHEDULED | CONFIRMED | IN_PROGRESS | COMPLETED | CANCELLED | NO_SHOW`). -/
inductive ApptStatus where
  | SCHEDULED
  | CONFIRMED
  | IN_PROGRESS
  | COMPLETED
  | CANCELLED
  | NO_SHOW
deriving Repr, DecidableEq

/-- Subscription status (`ACTIVE`/`CANCELLED` as written by the handlers). -/
inductive SubStatus where
  | ACTIVE
  | CANCELLED
  | CREATED
deriving Repr, DecidableEq

/-- Organization row (only the id is read by the modelled handlers). -/
structure Organization where
  id : Nat
deriving Repr, DecidableEq

/-- User row.  `organizationId` is the nullable FK to `Organization`;
`email` is read by the invite flow. -/
structure User where
  id : Nat
  email : String
  organizationId : Option Nat
  role : Role
deriving Repr, DecidableEq

/-- Clinic row: belongs to exactly one organization. -/
structure Clinic where
  id : Nat
  organizationId : Nat
deriving Repr, DecidableEq

/-- Patient row: belongs to exactly one clinic; `phone` carries the
per-organization uniqueness logic. -/
structure Patient where
  id : Nat
  clinicId : Nat
  name : String
  phone : String
deriving Repr, DecidableEq

/-- Appointment row. -/
structure Appointment where
  id : Nat
  patientId : Nat
  doctorId : Nat
  clinicId : Nat
  appointmentDate : Int
  duration : Nat
  status : ApptStatus
deriving Repr, DecidableEq

/-- EHR record row (clinical free-text fields omitted: no modelled branch
reads them). -/
structure EHRRecord where
  id : Nat
  patientId : Nat
  doctorId : Nat
deriving Repr, DecidableEq

/-- Invite row, as created by `inviteUser`. -/
structure Invite where
  id : Nat
  email : String
  token : String
  role : Role
  organizationId : Nat
  invitedBy : Nat
  isUsed : Bool
  createdAt : Int
  expiresAt : Int
deriving Repr, DecidableEq

/-- Join row `OrganizationAddOn`: one per (organization, add-on). -/
structure OrganizationAddOn where
  organizationId : Nat
  addOnId : Nat
  isActive : Bool
  usageCount : Nat
deriving Repr, DecidableEq

/-- Subscription row mirroring the payment-provider subscription. -/
structure Subscription where
  id : Nat
  organizationId : Nat
  razorpaySubscriptionId : Nat
  status : SubStatus
  endDate : Option Int
deriving Repr, DecidableEq

/-- Snapshot of one organization's dependent data, the content serialized
into a backup file.

Modelled from the spec: `generateLocalBackup`, `restoreFromBackup` live in
`src/utils/backup.js`, which is absent from the repository snapshot; per the
spec the snapshot deep-fetches the organization's clinics, patients,
appointments and EHR records. -/
structure OrgSnapshot where
  clinics : List Clinic
  patients : List Patient
  appointments : List Appointment
  ehrRecords : List EHRRecord
deriving Repr, DecidableEq

/-- Backup row.  The source stores `fileUrl` as a string (either a cloud url
or `JSON.stringify` of the snapshot); the restore-point path stores the
serialized snapshot, modelled here as the snapshot itself. -/
structure Backup where
  id : Nat
  organizationId : Nat
  content : OrgSnapshot
  createdBy : Nat
deriving Repr, DecidableEq

/-- The database state: one list per Prisma model used by the modelled
handlers. -/
structure DB where
  organizations : List Organization
  users : List User
  clinics : List Clinic
  patients : List Patient
  appointments : List Appointment
  ehrRecords : List EHRRecord
  invites : List Invite
  organizationAddOns : List OrganizationAddOn
  subscriptions : List Subscription
  backups : List Backup
deriving Repr, DecidableEq

/-- Outcome of a handler: an HTTP error response or a success payload. -/
inductive ApiResult (α : Type) where
  | err (status : Nat) (msg : String)
  | ok (payload : α)
deriving Repr, DecidableEq

/-- Primary keys are unique: equality of ids (or invite tokens) within a
table implies equality of rows.  This mirrors the database's primary-key /
unique-column constraints, which a list model does not impose by itself. -/
structure DB.Wf (db : DB) : Prop where
  users : (db.users.map User.id).Nodup
  clinics : (db.clinics.map Clinic.id).Nodup
  patients : (db.patients.map Patient.id).Nodup
  appointments : (db.appointments.map Appointment.id).Nodup
  ehrRecords : (db.ehrRecords.map EHRRecord.id).Nodup
  invites : (db.invites.map Invite.id).Nodup
  inviteTokens : (db.invites.map Invite.token).Nodup

/-- Milliseconds in one minute, the factor in `duration * 60 * 1000`. -/
def minuteMs : Int := 60000

/-- Milliseconds in one day. -/
def dayMs : Int := 86400000

/-- The JS `x || d` default on a numeric field: `undefined` and `0` are both
falsy, so `duration || 30` turns an explicit `0` into the default as well. -/
def jsOrNat (x : Option Nat) (d : Nat) : Nat :=
  match x with
  | none => d
  | some v => if v == 0 then d else v

/-- `prisma.user.findUnique({ where: { id } })`. -/
def findUser (db : DB) (uid : Nat) : Option User :=
  db.users.find? (fun u => u.id == uid)

/-- Lookup of the `organization` relation included with a user. -/
def findOrganization (db : DB) (oid : Nat) : Option Organization :=
  db.organizations.find? (fun o => o.id == oid)

/-- The `include: { organization: true }` join: `null` when the user has no
`organizationId` (or the row is gone). -/
def userOrganization (db : DB) (u : User) : Option Organization :=
  match u.organizationId with
  | none => none
  | some oid => findOrganization db oid

/-- Outcome of the shared controller prologue: fetch the caller row with its
organization and bail out when either is missing.  `noUser` is the `null`
dereference (`user.organization` on a missing row) that each handler's catch
block turns into its own error response. -/
inductive PrologueOutcome where
  | noUser
  | noOrganization
  | ready (user : User) (org : Organization)

/-- The `findUnique` + `if (!user.organization)` prologue repeated at the top
of every controller. -/
def orgPrologue (db : DB) (callerId : Nat) : PrologueOutcome :=
  match findUser db callerId with
  | none => .noUser
  | some user =>
    match userOrganization db user with
    | none => .noOrganization
    | some org => .ready user org

/-- Relation filter `clinic: { organizationId: oid }` on a patient. -/
def patientInOrgB (db : DB) (p : Patient) (oid : Nat) : Bool :=
  db.clinics.any (fun c => c.id == p.clinicId && c.organizationId == oid)

/-- Relation filter `clinic: { organizationId: oid }` on an appointment. -/
def apptInOrgB (db : DB) (a : Appointment) (oid : Nat) : Bool :=
  db.clinics.any (fun c => c.id == a.clinicId && c.organizationId == oid)

/-- Relation filter `patient: { clinic: { organizationId: oid } }` on an EHR
record. -/
def ehrInOrgB (db : DB) (e : EHRRecord) (oid : Nat) : Bool :=
  db.patients.any (fun p => p.id == e.patientId && patientInOrgB db p oid)

/-- The role-based restriction the appointment handlers add to their `where`:
doctors only match their own appointments. -/
def doctorScopeB (user : User) (callerId : Nat) (a : Appointment) : Bool :=
  match user.role with
  | .DOCTOR => a.doctorId == callerId
  | _ => true

/-- Status filter `status: { in: ['SCHEDULED', 'CONFIRMED'] }`. -/
def isSchedOrConf (s : ApptStatus) : Bool :=
  match s with
  | .SCHEDULED => true
  | .CONFIRMED => true
  | _ => false

/-- Membership test for `['COMPLETED', 'CANCELLED'].includes(status)`. -/
def isFinalized (s : ApptStatus) : Bool :=
  match s with
  | .COMPLETED => true
  | .CANCELLED => true
  | _ => false

/-- Parse of the request's status string against the six allowed values. -/
def statusOfString (s : String) : Option ApptStatus :=
  if s == "SCHEDULED" then some .SCHEDULED
  else if s == "CONFIRMED" then some .CONFIRMED
  else if s == "IN_PROGRESS" then some .IN_PROGRESS
  else if s == "COMPLETED" then some .COMPLETED
  else if s == "CANCELLED" then some .CANCELLED
  else if s == "NO_SHOW" then some .NO_SHOW
  else none

/-- The `['SCHEDULED', ...].includes(status)` validation in
`updateAppointment`. -/
def validStatusStr (s : String) : Bool :=
  (statusOfString s).isSome

/-- The phone regex `/^[6-9]\d\x7b9\x7d$/` used by the patient handlers: ten
digits, the first in 6..9. -/
def validPhone (s : String) : Bool :=
  match s.toList with
  | [] => false
  | c :: rest =>
    (c == '6' || c == '7' || c == '8' || c == '9')
      && rest.length == 9 && rest.all Char.isDigit

/-- Ordering used by `orderBy: { appointmentDate: 'asc' }`. -/
def apptDateLE (a b : Appointment) : Prop :=
  a.appointmentDate ≤ b.appointmentDate

instance : DecidableRel apptDateLE := fun a b =>
  inferInstanceAs (Decidable (a.appointmentDate ≤ b.appointmentDate))

/- ### GET /api/patients/:id (patients controller, `getPatientById`) -/

/-- `getPatientById`: scoped `findFirst` on id plus the clinic→organization
chain; misses answer 404 `Patient not found` (the catch block answers the
same). -/
def getPatientById (db : DB) (callerId : Nat) (pid : Nat) : ApiResult Patient :=
  match orgPrologue db callerId with
  | .noUser => .err 404 "Patient not found"
  | .noOrganization => .err 404 "Organization not found"
  | .ready _user org =>
    match db.patients.find? (fun p => p.id == pid && patientInOrgB db p org.id) with
    | none => .err 404 "Patient not found"
    | some p => .ok p

/- ### GET /api/appointments/:id (`getAppointmentById`) -/

/-- `getAppointmentById`: scoped `findFirst` on id, organization chain and,
for doctors, `doctorId = callerId`. -/
def getAppointmentById (db : DB) (callerId : Nat) (aid : Nat) : ApiResult Appointment :=
  match orgPrologue db callerId with
  | .noUser => .err 404 "Appointment not found"
  | .noOrganization => .err 404 "Organization not found"
  | .ready user org =>
    match db.appointments.find?
        (fun a => a.id == aid && apptInOrgB db a org.id && doctorScopeB user callerId a) with
    | none => .err 404 "Appointment not found"
    | some a => .ok a

/- ### GET /api/ehr/:id (`getEHRRecordById`) -/

/-- `getEHRRecordById`: scoped `findFirst` on id plus the
patient→clinic→organization chain. -/
def getEHRRecordById (db : DB) (callerId : Nat) (eid : Nat) : ApiResult EHRRecord :=
  match orgPrologue db callerId with
  | .noUser => .err 404 "EHR record not found"
  | .noOrganization => .err 404 "Organization not found"
  | .ready _user org =>
    match db.ehrRecords.find? (fun e => e.id == eid && ehrInOrgB db e org.id) with
    | none => .err 404 "EHR record not found"
    | some e => .ok e

/- ### GET /api/clinics/:id (`getClinicById`) -/

/-- `getClinicById`: scoped `findFirst` on id and `organizationId`. -/
def getClinicById (db : DB) (callerId : Nat) (cid : Nat) : ApiResult Clinic :=
  match orgPrologue db callerId with
  | .noUser => .err 404 "Clinic not found"
  | .noOrganization => .err 404 "Organization not found"
  | .ready _user org =>
    match db.clinics.find? (fun c => c.id == cid && c.organizationId == org.id) with
    | none => .err 404 "Clinic not found"
    | some c => .ok c

/- ### GET /api/appointments (`getAppointments`) -/

/-- Optional query parameters of the appointment list endpoint.  `date` is
the parsed day-start timestamp of the `date` string. -/
structure ApptListFilters where
  date : Option Int
  doctor : Option Nat
  clinic : Option Nat
  status : Option ApptStatus
deriving Repr, DecidableEq

/-- The `whereConditions` object `getAppointments` builds: the organization
chain, then `doctorId = userId` when the caller is a DOCTOR, then each
supplied filter — note the `doctor` query parameter assigns the same
`doctorId` key and hence replaces the role-based restriction. -/
def apptListWhere (db : DB) (user : User) (callerId : Nat) (oid : Nat)
    (f : ApptListFilters) (a : Appointment) : Bool :=
  apptInOrgB db a oid
    && (match f.doctor with
        | some d => a.doctorId == d
        | none => doctorScopeB user callerId a)
    && (match f.date with
        | some d => decide (d ≤ a.appointmentDate) && decide (a.appointmentDate < d + dayMs)
        | none => true)
    && (match f.clinic with
        | some c => a.clinicId == c
        | none => true)
    && (match f.status with
        | some s => s == a.status
        | none => true)

/-- `getAppointments`: scoped `findMany` ordered by date ascending.  The
catch block (hit on a missing caller row) answers 500. -/
def getAppointments (db : DB) (callerId : Nat) (f : ApptListFilters) :
    ApiResult (List Appointment) :=
  match orgPrologue db callerId with
  | .noUser => .err 500 "Failed to fetch appointments"
  | .noOrganization => .err 404 "Organization not found"
  | .ready user org =>
    .ok ((db.appointments.filter (apptListWhere db user callerId org.id f)).insertionSort apptDateLE)

/- ### POST /api/appointments (`createAppointment`) -/

/-- Body of the create-appointment request. -/
structure CreateApptBody where
  patientId : Nat
  doctorId : Nat
  clinicId : Nat
  appointmentDate : Int
  duration : Option Nat
deriving Repr, DecidableEq

/-- The conflict `findFirst`: another appointment of the same doctor whose
start lies in the closed window `[start - dur minutes, start + dur minutes]`
with status SCHEDULED or CONFIRMED.  `excludeId` is the `id: { not: id }`
clause of the update path; the create path passes `none`. -/
def conflictB (db : DB) (docId : Nat) (excludeId : Option Nat) (start : Int) (dur : Nat) : Bool :=
  db.appointments.any (fun a =>
    a.doctorId == docId
      && (match excludeId with
          | some i => !(a.id == i)
          | none => true)
      && decide (start - dur * minuteMs ≤ a.appointmentDate)
      && decide (a.appointmentDate ≤ start + dur * minuteMs)
      && isSchedOrConf a.status)

/-- `createAppointment`.  `now` is `new Date()` at handler time, `newId` the
id the store assigns to the created row. -/
def createAppointment (db : DB) (now : Int) (callerId : Nat) (body : CreateApptBody)
    (newId : Nat) : ApiResult Appointment × DB :=
  match orgPrologue db callerId with
  | .noUser => (.err 500 "Failed to create appointment", db)
  | .noOrganization => (.err 404 "Organization not found", db)
  | .ready _user org =>
    match db.patients.find? (fun p => p.id == body.patientId && patientInOrgB db p org.id) with
    | none => (.err 400 "Invalid patient selected", db)
    | some _patient =>
      match db.users.find? (fun u =>
          u.id == body.doctorId && u.organizationId == some org.id
            && (match u.role with | .DOCTOR => true | _ => false)) with
      | none => (.err 400 "Invalid doctor selected", db)
      | some _doctor =>
        match db.clinics.find? (fun c => c.id == body.clinicId && c.organizationId == org.id) with
        | none => (.err 400 "Invalid clinic selected", db)
        | some _clinic =>
          if body.appointmentDate ≤ now then
            (.err 400 "Appointment must be scheduled for a future date and time", db)
          else if conflictB db body.doctorId none body.appointmentDate (jsOrNat body.duration 30) then
            (.err 400 "Doctor has a conflicting appointment at this time", db)
          else
            let appt : Appointment :=
              { id := newId
                patientId := body.patientId
                doctorId := body.doctorId
                clinicId := body.clinicId
                appointmentDate := body.appointmentDate
                duration := jsOrNat body.duration 30
                status := .SCHEDULED }
            (.ok appt, { db with appointments := db.appointments ++ [appt] })

/- ### PUT /api/appointments/:id (`updateAppointment`) -/

/-- Body of the update-appointment request; every field optional
(`undefined` leaves the column unchanged).  `status` stays a raw string
because the handler validates it against the six allowed values itself. -/
structure UpdateApptBody where
  patientId : Option Nat
  doctorId : Option Nat
  clinicId : Option Nat
  appointmentDate : Option Int
  duration : Option Nat
  status : Option String
deriving Repr, DecidableEq

/-- The row written by `prisma.appointment.update` in `updateAppointment`:
supplied fields replace the stored ones, `undefined` fields keep them.  The
`status` string was validated before this point, so the parse succeeds. -/
def mergeApptUpdate (existing : Appointment) (body : UpdateApptBody) : Appointment :=
  { existing with
    patientId := body.patientId.getD existing.patientId
    doctorId := body.doctorId.getD existing.doctorId
    clinicId := body.clinicId.getD existing.clinicId
    appointmentDate := body.appointmentDate.getD existing.appointmentDate
    duration := body.duration.getD existing.duration
    status := match body.status with
      | some s => (statusOfString s).getD existing.status
      | none => existing.status }

/-- `updateAppointment`.  The conflict/future checks run whenever the body
carries an `appointmentDate`: the source guards them with
`appointmentDate !== existingAppointment.appointmentDate`, a strict
comparison of the request's string against the stored `Date` object, which
is true for every supplied value. -/
def updateAppointment (db : DB) (now : Int) (callerId : Nat) (id : Nat)
    (body : UpdateApptBody) : ApiResult Appointment × DB :=
  match orgPrologue db callerId with
  | .noUser => (.err 404 "Appointment not found", db)
  | .noOrganization => (.err 404 "Organization not found", db)
  | .ready user org =>
    match db.appointments.find?
        (fun a => a.id == id && apptInOrgB db a org.id && doctorScopeB user callerId a) with
    | none => (.err 404 "Appointment not found", db)
    | some existing =>
      if (match body.status with
          | some s => !(validStatusStr s)
          | none => false) then
        (.err 400 "Invalid appointment status", db)
      else
        match body.appointmentDate with
        | some newDate =>
          if newDate ≤ now then
            (.err 400 "Appointment must be scheduled for a future date and time", db)
          else if conflictB db (body.doctorId.getD existing.doctorId) (some id) newDate
              (jsOrNat body.duration existing.duration) then
            (.err 400 "Doctor has a conflicting appointment at this time", db)
          else
            let merged := mergeApptUpdate existing body
            (.ok merged,
             { db with appointments :=
                db.appointments.map (fun a => if a.id == id then merged else a) })
        | none =>
          let merged := mergeApptUpdate existing body
          (.ok merged,
           { db with appointments :=
              db.appointments.map (fun a => if a.id == id then merged else a) })

/- ### DELETE /api/appointments/:id (`deleteAppointment`) -/

/-- `deleteAppointment`: cancellation with past/finalized guards; success
sets the status to CANCELLED. -/
def deleteAppointment (db : DB) (now : Int) (callerId : Nat) (id : Nat) :
    ApiResult String × DB :=
  match orgPrologue db callerId with
  | .noUser => (.err 400 "Cannot cancel appointment", db)
  | .noOrganization => (.err 404 "Organization not found", db)
  | .ready user org =>
    match db.appointments.find?
        (fun a => a.id == id && apptInOrgB db a org.id && doctorScopeB user callerId a) with
    | none => (.err 404 "Appointment not found", db)
    | some appt =>
      if appt.appointmentDate ≤ now then
        (.err 400 "Cannot cancel past appointments", db)
      else if isFinalized appt.status then
        (.err 400 "Appointment is already completed or cancelled", db)
      else
        (.ok "Appointment cancelled successfully",
         { db with appointments :=
            db.appointments.map (fun a =>
              if a.id == id then { a with status := .CANCELLED } else a) })

/- ### POST /api/patients (`createPatient`) -/

/-- Body of the create-patient request (fields the handler reads). -/
structure CreatePatientBody where
  name : String
  phone : String
  clinicId : Nat
deriving Repr, DecidableEq

/-- `createPatient`: phone-format check, per-organization duplicate-phone
check, clinic-ownership check, then the insert. -/
def createPatient (db : DB) (callerId : Nat) (body : CreatePatientBody)
    (newId : Nat) : ApiResult Patient × DB :=
  match orgPrologue db callerId with
  | .noUser => (.err 500 "Failed to create patient", db)
  | .noOrganization => (.err 404 "Organization not found", db)
  | .ready _user org =>
    if !(validPhone body.phone) then
      (.err 400 "Invalid phone number format. Please enter a valid 10-digit Indian mobile number.", db)
    else
      match db.patients.find? (fun p => p.phone == body.phone && patientInOrgB db p org.id) with
      | some _existing => (.err 400 "Patient with this phone number already exists", db)
      | none =>
        match db.clinics.find? (fun c => c.id == body.clinicId && c.organizationId == org.id) with
        | none => (.err 400 "Invalid clinic selected", db)
        | some _clinic =>
          let patient : Patient :=
            { id := newId, clinicId := body.clinicId, name := body.name, phone := body.phone }
          (.ok patient, { db with patients := db.patients ++ [patient] })

/- ### PUT /api/patients/:id (`updatePatient`) -/

/-- Body of the update-patient request; supplied fields replace stored ones. -/
structure UpdatePatientBody where
  name : Option String
  phone : Option String
  clinicId : Option Nat
deriving Repr, DecidableEq

/-- The row written by `prisma.patient.update` in `updatePatient`. -/
def mergePatientUpdate (existing : Patient) (body : UpdatePatientBody) : Patient :=
  { existing with
    name := body.name.getD existing.name
    phone := body.phone.getD existing.phone
    clinicId := body.clinicId.getD existing.clinicId }

/-- `updatePatient`: the duplicate-phone check runs only when a phone is
supplied and differs from the stored one, and excludes the patient's own row
(`id: { not: id }`). -/
def updatePatient (db : DB) (callerId : Nat) (id : Nat) (body : UpdatePatientBody) :
    ApiResult Patient × DB :=
  match orgPrologue db callerId with
  | .noUser => (.err 404 "Patient not found", db)
  | .noOrganization => (.err 404 "Organization not found", db)
  | .ready _user org =>
    match db.patients.find? (fun p => p.id == id && patientInOrgB db p org.id) with
    | none => (.err 404 "Patient not found", db)
    | some existing =>
      match body.phone with
      | some newPhone =>
        if !(newPhone == existing.phone) then
          if !(validPhone newPhone) then
            (.err 400 "Invalid phone number format. Please enter a valid 10-digit Indian mobile number.", db)
          else
            match db.patients.find? (fun p =>
                p.phone == newPhone && !(p.id == id) && patientInOrgB db p org.id) with
            | some _dup => (.err 400 "Another patient with this phone number already exists", db)
            | none =>
              let merged := mergePatientUpdate existing body
              (.ok merged,
               { db with patients := db.patients.map (fun p => if p.id == id then merged else p) })
        else
          let merged := mergePatientUpdate existing body
          (.ok merged,
           { db with patients := db.patients.map (fun p => if p.id == id then merged else p) })
      | none =>
        let merged := mergePatientUpdate existing body
        (.ok merged,
         { db with patients := db.patients.map (fun p => if p.id == id then merged else p) })

/- ### DELETE /api/organizations/users/:userId (`removeUserFromOrganization`) -/

/-- Filter of the `prisma.user.count` call: members of the organization with
the ADMIN role. -/
def isOrgAdminB (oid : Nat) (u : User) : Bool :=
  u.organizationId == some oid && (match u.role with | .ADMIN => true | _ => false)

/-- `prisma.user.count({ where: { organizationId, role: 'ADMIN' } })`. -/
def countOrgAdmins (db : DB) (oid : Nat) : Nat :=
  (db.users.filter (isOrgAdminB oid)).length

/-- `removeUserFromOrganization`: reject when the target is an ADMIN and the
organization counts at most one ADMIN; otherwise clear the target's
`organizationId`. -/
def removeUserFromOrganization (db : DB) (adminUserId : Nat) (targetUserId : Nat) :
    ApiResult String × DB :=
  match orgPrologue db adminUserId with
  | .noUser => (.err 400 "Cannot remove user", db)
  | .noOrganization => (.err 404 "Organization not found", db)
  | .ready _adminUser org =>
    match db.users.find? (fun u => u.id == targetUserId && u.organizationId == some org.id) with
    | none => (.err 404 "User not found in organization", db)
    | some targetUser =>
      if targetUser.role = .ADMIN ∧ countOrgAdmins db org.id ≤ 1 then
        (.err 400 "Cannot remove the last admin from organization", db)
      else
        (.ok "User removed from organization",
         { db with users := db.users.map (fun u =>
            if u.id == targetUserId then { u with organizationId := none } else u) })

/- ### POST /api/organizations/invite (`inviteUser`) -/

/-- `inviteUser`: duplicate-email and pending-invite checks, then an invite
with a 7-day expiry.  `token`/`newId` stand for the generated random token
and the assigned row id. -/
def inviteUser (db : DB) (now : Int) (callerId : Nat) (email : String)
    (role : Option Role) (token : String) (newId : Nat) : ApiResult String × DB :=
  match orgPrologue db callerId with
  | .noUser => (.err 500 "Failed to send invitation", db)
  | .noOrganization => (.err 404 "Organization not found", db)
  | .ready _user org =>
    match db.users.find? (fun u => u.email == email) with
    | some _existing => (.err 400 "User with this email already exists", db)
    | none =>
      match db.invites.find? (fun i =>
          i.email == email && i.organizationId == org.id && !i.isUsed
            && decide (now < i.expiresAt)) with
      | some _pending => (.err 400 "Invitation already sent to this email", db)
      | none =>
        let invite : Invite :=
          { id := newId
            email := email
            token := token
            role := role.getD .DOCTOR
            organizationId := org.id
            invitedBy := callerId
            isUsed := false
            createdAt := now
            expiresAt := now + 7 * dayMs }
        (.ok "Invitation sent successfully", { db with invites := db.invites ++ [invite] })

/- ### POST /api/organizations/join/:token (`joinOrganization`) -/

/-- `joinOrganization`: token lookup, used/expired checks, membership check,
then the user update followed by marking the invite used.  A missing
organization row only surfaces when the success response dereferences
`invite.organization`, after both writes — the catch block then answers 400. -/
def joinOrganization (db : DB) (now : Int) (token : String) (callerId : Nat) :
    ApiResult String × DB :=
  match db.invites.find? (fun i => i.token == token) with
  | none => (.err 400 "Invalid invitation token", db)
  | some invite =>
    if invite.isUsed then
      (.err 400 "Invitation has already been used", db)
    else if invite.expiresAt < now then
      (.err 400 "Invitation has expired", db)
    else
      match findUser db callerId with
      | none => (.err 400 "Invalid or expired invitation", db)
      | some user =>
        if user.organizationId.isSome then
          (.err 400 "User already belongs to an organization", db)
        else
          let db1 : DB :=
            { db with users := db.users.map (fun u =>
                if u.id == callerId then
                  { u with organizationId := some invite.organizationId, role := invite.role }
                else u) }
          let db2 : DB :=
            { db1 with invites := db1.invites.map (fun i =>
                if i.id == invite.id then { i with isUsed := true } else i) }
          match findOrganization db2 invite.organizationId with
          | none => (.err 400 "Invalid or expired invitation", db2)
          | some _org => (.ok "Successfully joined organization", db2)

/- ### POST /api/backup/restore (`restoreBackup`) -/

/-- Parsed request body of the restore endpoint.  The handler only tests the
presence (truthiness) of the three top-level keys before handing the payload
on, so each key is an `Option` whose content feeds the restore step. -/
structure BackupPayload where
  organization : Option Organization
  patients : Option (List Patient)
  appointments : Option (List Appointment)
deriving Repr, DecidableEq

/-- Modelled from the spec: `generateLocalBackup` (in the absent
`src/utils/backup.js`) deep-fetches the organization's clinics, patients,
appointments and EHR records into one serializable document. -/
def generateLocalBackup (db : DB) (oid : Nat) : OrgSnapshot :=
  { clinics := db.clinics.filter (fun c => c.organizationId == oid)
    patients := db.patients.filter (fun p => patientInOrgB db p oid)
    appointments := db.appointments.filter (fun a => apptInOrgB db a oid)
    ehrRecords := db.ehrRecords.filter (fun e => ehrInOrgB db e oid) }

/-- Counts of restored records, the shape `restoreBackup` reports. -/
structure RestoreCounts where
  patients : Nat
  appointments : Nat
deriving Repr, DecidableEq

/-- Modelled from the spec: `restoreFromBackup` (in the absent
`src/utils/backup.js`) applies the incoming data to the organization,
replacing its patient and appointment rows; it does not touch the `backups`
table. -/
def restoreFromBackup (db : DB) (payload : BackupPayload) (oid : Nat) :
    RestoreCounts × DB :=
  let newPatients := payload.patients.getD []
  let newAppointments := payload.appointments.getD []
  ({ patients := newPatients.length, appointments := newAppointments.length },
   { db with
      patients := db.patients.filter (fun p => !(patientInOrgB db p oid)) ++ newPatients
      appointments := db.appointments.filter (fun a => !(apptInOrgB db a oid)) ++ newAppointments })

/-- `restoreBackup`: presence check of the payload, top-level shape check,
restore-point snapshot of the current state, then the apply step. -/
def restoreBackup (db : DB) (callerId : Nat) (payload : Option BackupPayload)
    (newBackupId : Nat) : ApiResult RestoreCounts × DB :=
  match orgPrologue db callerId with
  | .noUser => (.err 400 "Failed to restore backup", db)
  | .noOrganization => (.err 404 "Organization not found", db)
  | .ready _user org =>
    match payload with
    | none => (.err 400 "Backup data is required", db)
    | some backupData =>
      if backupData.organization.isNone || backupData.patients.isNone
          || backupData.appointments.isNone then
        (.err 400 "Invalid backup data format", db)
      else
        let restorePoint : Backup :=
          { id := newBackupId
            organizationId := org.id
            content := generateLocalBackup db org.id
            createdBy := callerId }
        let dbWithPoint : DB := { db with backups := db.backups ++ [restorePoint] }
        let applied := restoreFromBackup dbWithPoint backupData org.id
        (.ok applied.1, applied.2)

/- ### POST /api/addons/razorpay-webhook (`handleRazorpayWebhook`) -/

/-- Webhook event discriminator (`webhookBody.event`). -/
inductive WebhookEvent where
  | activated
  | cancelled
  | paymentFailed
  | other
deriving Repr, DecidableEq

/-- Webhook body: the event plus `payload.subscription.id`. -/
structure WebhookBody where
  event : WebhookEvent
  subscriptionId : Nat
deriving Repr, DecidableEq

/-- `verifyRazorpayWebhook` from `src/utils/razorpay.js`: the placeholder
implementation returns `true` unconditionally. -/
def verifyRazorpayWebhook (_body : WebhookBody) (_sig : String) : Bool :=
  true

/-- `handleRazorpayWebhook`: on `subscription.activated` / `.cancelled`,
update the matching subscription rows, then look the subscription up and
toggle `isActive` on every `OrganizationAddOn` row of its organization. -/
def handleRazorpayWebhook (db : DB) (now : Int) (body : WebhookBody) (sig : String) :
    ApiResult String × DB :=
  if !(verifyRazorpayWebhook body sig) then
    (.err 400 "Invalid webhook signature", db)
  else
    match body.event with
    | .activated =>
      let db1 : DB :=
        { db with subscriptions := db.subscriptions.map (fun s =>
            if s.razorpaySubscriptionId == body.subscriptionId then
              { s with status := .ACTIVE }
            else s) }
      match db1.subscriptions.find? (fun s => s.razorpaySubscriptionId == body.subscriptionId) with
      | none => (.ok "ok", db1)
      | some sub =>
        (.ok "ok",
         { db1 with organizationAddOns := db1.organizationAddOns.map (fun oa =>
            if oa.organizationId == sub.organizationId then { oa with isActive := true } else oa) })
    | .cancelled =>
      let db1 : DB :=
        { db with subscriptions := db.subscriptions.map (fun s =>
            if s.razorpaySubscriptionId == body.subscriptionId then
              { s with status := .CANCELLED, endDate := some now }
            else s) }
      match db1.subscriptions.find? (fun s => s.razorpaySubscriptionId == body.subscriptionId) with
      | none => (.ok "ok", db1)
      | some sub =>
        (.ok "ok",
         { db1 with organizationAddOns := db1.organizationAddOns.map (fun oa =>
            if oa.organizationId == sub.organizationId then { oa with isActive := false } else oa) })
    | .paymentFailed => (.ok "ok", db)
    | .other => (.ok "ok", db)

/- ### Concrete example data used by witnesses and counterexamples -/

/-- Caller of the C1 witness: a STAFF user of organization 2. -/
def c1Caller : User := { id := 10, email := "staff2@example.com", organizationId := some 2, role := .STAFF }

/-- Clinic of organization 1 in the C1 witness. -/
def c1Clinic : Clinic := { id := 100, organizationId := 1 }

/-- Patient of organization 1 in the C1 witness. -/
def c1Patient : Patient := { id := 200, clinicId := 100, name := "Asha", phone := "9876543210" }

/-- Appointment of organization 1 in the C1 witness. -/
def c1Appt : Appointment :=
  { id := 300, patientId := 200, doctorId := 11, clinicId := 100,
    appointmentDate := 1000, duration := 30, status := .SCHEDULED }

/-- EHR record of organization 1 in the C1 witness. -/
def c1Ehr : EHRRecord := { id := 400, patientId := 200, doctorId := 11 }

/-- Two organizations; every clinical entity lives in organization 1, the
caller in organization 2. -/
def c1Db : DB :=
  { organizations := [⟨1⟩, ⟨2⟩]
    users := [c1Caller]
    clinics := [c1Clinic]
    patients := [c1Patient]
    appointments := [c1Appt]
    ehrRecords := [c1Ehr]
    invites := []
    organizationAddOns := []
    subscriptions := []
    backups := [] }

/-- Caller of the C2 scenarios: a DOCTOR of organization 1. -/
def c2Doctor : User := { id := 10, email := "doc10@example.com", organizationId := some 1, role := .DOCTOR }

/-- Second doctor of organization 1. -/
def c2Doctor20 : User := { id := 20, email := "doc20@example.com", organizationId := some 1, role := .DOCTOR }

/-- Appointment assigned to the calling doctor. -/
def c2OwnAppt : Appointment :=
  { id := 300, patientId := 200, doctorId := 10, clinicId := 100,
    appointmentDate := 1000, duration := 30, status := .SCHEDULED }

/-- Appointment assigned to the other doctor. -/
def c2OtherAppt : Appointment :=
  { id := 301, patientId := 201, doctorId := 20, clinicId := 100,
    appointmentDate := 2000, duration := 30, status := .SCHEDULED }

/-- One organization, two doctors, one appointment each. -/
def c2Db : DB :=
  { organizations := [⟨1⟩]
    users := [c2Doctor, c2Doctor20]
    clinics := [⟨100, 1⟩]
    patients := []
    appointments := [c2OwnAppt, c2OtherAppt]
    ehrRecords := []
    invites := []
    organizationAddOns := []
    subscriptions := []
    backups := [] }

/-- Query with only the `doctor` filter set, to the other doctor's id. -/
def c2OverrideFilters : ApptListFilters :=
  { date := none, doctor := some 20, clinic := none, status := none }

/-- Query with no filters. -/
def c2NoFilters : ApptListFilters :=
  { date := none, doctor := none, clinic := none, status := none }

/-- List the calling doctor receives without filters on `c2Db`. -/
def c2DocList : List Appointment := [c2OwnAppt]

/-- Caller of the C3 scenarios: a STAFF user of organization 1. -/
def c3Staff : User := { id := 10, email := "staff1@example.com", organizationId := some 1, role := .STAFF }

/-- The doctor whose calendar the C3 scenarios book. -/
def c3Doc : User := { id := 20, email := "doc20b@example.com", organizationId := some 1, role := .DOCTOR }

/-- Existing appointment A of the doctor. -/
def c3ApptA : Appointment :=
  { id := 300, patientId := 200, doctorId := 20, clinicId := 100,
    appointmentDate := 100000000, duration := 30, status := .SCHEDULED }

/-- Existing appointment B of the doctor, ten minutes after A. -/
def c3ApptB : Appointment :=
  { id := 301, patientId := 200, doctorId := 20, clinicId := 100,
    appointmentDate := 100600000, duration := 30, status := .SCHEDULED }

/-- One organization, one doctor with two scheduled appointments. -/
def c3Db : DB :=
  { organizations := [⟨1⟩]
    users := [c3Staff, c3Doc]
    clinics := [⟨100, 1⟩]
    patients := [{ id := 200, clinicId := 100, name := "Ravi", phone := "9876543211" }]
    appointments := [c3ApptA, c3ApptB]
    ehrRecords := []
    invites := []
    organizationAddOns := []
    subscriptions := []
    backups := [] }

/-- Create request ten minutes after A: inside A's symmetric window. -/
def c3CreateBody : CreateApptBody :=
  { patientId := 200, doctorId := 20, clinicId := 100,
    appointmentDate := 100600000, duration := some 30 }

/-- Update of A to a time inside B's symmetric window. -/
def c3UpdConflictBody : UpdateApptBody :=
  { patientId := none, doctorId := none, clinicId := none,
    appointmentDate := some 101000000, duration := none, status := none }

/-- Update of B to a time whose window contains only B's own old slot. -/
def c3UpdOwnBody : UpdateApptBody :=
  { patientId := none, doctorId := none, clinicId := none,
    appointmentDate := some 102000000, duration := none, status := none }

/-- First patient of the C4 scenarios. -/
def c4P1 : Patient := { id := 200, clinicId := 100, name := "Asha", phone := "9876543210" }

/-- Second patient of the C4 scenarios, different phone. -/
def c4P2 : Patient := { id := 201, clinicId := 100, name := "Ravi", phone := "9123456789" }

/-- One organization with two patients. -/
def c4Db : DB :=
  { organizations := [⟨1⟩]
    users := [{ id := 10, email := "staff4@example.com", organizationId := some 1, role := .STAFF }]
    clinics := [⟨100, 1⟩]
    patients := [c4P1, c4P2]
    ehrRecords := []
    appointments := []
    invites := []
    organizationAddOns := []
    subscriptions := []
    backups := [] }

/-- Create request reusing P1's phone. -/
def c4CreateBody : CreatePatientBody := { name := "Dup", phone := "9876543210", clinicId := 100 }

/-- Update request moving a patient onto P1's phone. -/
def c4UpdDupBody : UpdatePatientBody := { name := none, phone := some "9876543210", clinicId := none }

/-- Organization 1 with two admins and a doctor. -/
def c5Db : DB :=
  { organizations := [⟨1⟩]
    users :=
      [{ id := 10, email := "admin10@example.com", organizationId := some 1, role := .ADMIN },
       { id := 11, email := "admin11@example.com", organizationId := some 1, role := .ADMIN },
       { id := 20, email := "doc20c@example.com", organizationId := some 1, role := .DOCTOR }]
    clinics := []
    patients := []
    appointments := []
    ehrRecords := []
    invites := []
    organizationAddOns := []
    subscriptions := []
    backups := [] }

/-- Organization 1 with a single admin and a doctor. -/
def c5DbOne : DB :=
  { organizations := [⟨1⟩]
    users :=
      [{ id := 10, email := "admin10@example.com", organizationId := some 1, role := .ADMIN },
       { id := 20, email := "doc20c@example.com", organizationId := some 1, role := .DOCTOR }]
    clinics := []
    patients := []
    appointments := []
    ehrRecords := []
    invites := []
    organizationAddOns := []
    subscriptions := []
    backups := [] }

/-- An already-consumed invite. -/
def c6UsedInv : Invite :=
  { id := 1, email := "u@example.com", token := "tokU", role := .DOCTOR,
    organizationId := 1, invitedBy := 10, isUsed := true, createdAt := 0, expiresAt := 7 * dayMs }

/-- An expired invite (created at time 0). -/
def c6ExpInv : Invite :=
  { id := 2, email := "e@example.com", token := "tokE", role := .DOCTOR,
    organizationId := 1, invitedBy := 10, isUsed := false, createdAt := 0, expiresAt := 7 * dayMs }

/-- A live invite. -/
def c6FreshInv : Invite :=
  { id := 3, email := "f@example.com", token := "tokF", role := .DOCTOR,
    organizationId := 1, invitedBy := 10, isUsed := false, createdAt := 0, expiresAt := 7 * dayMs }

/-- One organization with an admin, an unaffiliated joiner and three
invites: used, expired and live. -/
def c6Db : DB :=
  { organizations := [⟨1⟩]
    users :=
      [{ id := 10, email := "admin6@example.com", organizationId := some 1, role := .ADMIN },
       { id := 50, email := "joiner@example.com", organizationId := none, role := .STAFF }]
    clinics := []
    patients := []
    appointments := []
    ehrRecords := []
    invites := [c6UsedInv, c6ExpInv, c6FreshInv]
    organizationAddOns := []
    subscriptions := []
    backups := [] }

/-- Organization 1 with an admin caller, some data and no backups yet. -/
def c7Db : DB :=
  { organizations := [⟨1⟩]
    users := [{ id := 10, email := "admin7@example.com", organizationId := some 1, role := .ADMIN }]
    clinics := [⟨100, 1⟩]
    patients := [{ id := 200, clinicId := 100, name := "Asha", phone := "9876543210" }]
    appointments := []
    ehrRecords := []
    invites := []
    organizationAddOns := []
    subscriptions := []
    backups := [] }

/-- Restore payload missing the `organization` key. -/
def c7BadPayload : BackupPayload :=
  { organization := none, patients := some [], appointments := some [] }

/-- Well-shaped restore payload. -/
def c7GoodPayload : BackupPayload :=
  { organization := some ⟨1⟩, patients := some [], appointments := some [] }

/-- A past appointment (relative to `now = 0`). -/
def c8Past : Appointment :=
  { id := 300, patientId := 200, doctorId := 20, clinicId := 100,
    appointmentDate := -100, duration := 30, status := .SCHEDULED }

/-- A completed future appointment. -/
def c8Done : Appointment :=
  { id := 301, patientId := 200, doctorId := 20, clinicId := 100,
    appointmentDate := 1000, duration := 30, status := .COMPLETED }

/-- A live future appointment. -/
def c8Live : Appointment :=
  { id := 302, patientId := 200, doctorId := 20, clinicId := 100,
    appointmentDate := 1000, duration := 30, status := .SCHEDULED }

/-- Organization 1 with the three C8 appointments. -/
def c8Db : DB :=
  { organizations := [⟨1⟩]
    users := [{ id := 10, email := "staff8@example.com", organizationId := some 1, role := .STAFF }]
    clinics := [⟨100, 1⟩]
    patients := []
    appointments := [c8Past, c8Done, c8Live]
    ehrRecords := []
    invites := []
    organizationAddOns := []
    subscriptions := []
    backups := [] }

/-- A scheduled appointment for the C9 scenarios. -/
def c9Sched : Appointment :=
  { id := 300, patientId := 200, doctorId := 20, clinicId := 100,
    appointmentDate := 1000, duration := 30, status := .SCHEDULED }

/-- A cancelled appointment for the C9 scenarios. -/
def c9Canc : Appointment :=
  { id := 301, patientId := 200, doctorId := 20, clinicId := 100,
    appointmentDate := 1000, duration := 30, status := .CANCELLED }

/-- Organization 1 with a scheduled and a cancelled appointment. -/
def c9Db : DB :=
  { organizations := [⟨1⟩]
    users := [{ id := 10, email := "staff9@example.com", organizationId := some 1, role := .STAFF }]
    clinics := [⟨100, 1⟩]
    patients := []
    appointments := [c9Sched, c9Canc]
    ehrRecords := []
    invites := []
    organizationAddOns := []
    subscriptions := []
    backups := [] }

/-- Update body that only sets the given status string. -/
def statusOnlyBody (s : String) : UpdateApptBody :=
  { patientId := none, doctorId := none, clinicId := none,
    appointmentDate := none, duration := none, status := some s }

/-- Subscription of organization 1 with provider id 77. -/
def c10Sub : Subscription :=
  { id := 1, organizationId := 1, razorpaySubscriptionId := 77, status := .ACTIVE, endDate := none }

/-- Two organizations; organization 1 holds two add-on rows (usage 5 and 7)
and organization 2 one row (usage 3); organization 1 owns subscription 77. -/
def c10Db : DB :=
  { organizations := [⟨1⟩, ⟨2⟩]
    users := []
    clinics := []
    patients := []
    appointments := []
    ehrRecords := []
    invites := []
    organizationAddOns :=
      [{ organizationId := 1, addOnId := 1, isActive := true, usageCount := 5 },
       { organizationId := 1, addOnId := 2, isActive := true, usageCount := 7 },
       { organizationId := 2, addOnId := 1, isActive := true, usageCount := 3 }]
    subscriptions := [c10Sub]
    backups := [] }

/- ### Helper lemmas about scoped lookups -/

/-- Within a table whose mapped ids are `Nodup`, a row is determined by its
id. -/
theorem row_eq_of_id_eq {α β : Type} {f : α → β} {l : List α}
    (h : (l.map f).Nodup) {x y : α} (hx : x ∈ l) (hy : y ∈ l) (hf : f x = f y) :
    x = y :=
  List.inj_on_of_nodup_map h hx hy hf

/-- A patient whose clinic belongs to a different organization fails the
`clinic: { organizationId }` relation filter. -/
theorem patientInOrgB_eq_false {db : DB} (hwf : db.Wf) {p : Patient} {c : Clinic}
    (hc : c ∈ db.clinics) (hcid : c.id = p.clinicId) {o : Nat}
    (horg : c.organizationId ≠ o) : patientInOrgB db p o = false := by
  rw [patientInOrgB, List.any_eq_false]
  intro c' hc'
  simp only [Bool.and_eq_true, beq_iff_eq, not_and]
  intro hid
  have hcc : c' = c := row_eq_of_id_eq hwf.clinics hc' hc (hid.trans hcid.symm)
  intro ho
  exact horg (hcc ▸ ho)

/-- An appointment whose clinic belongs to a different organization fails
the `clinic: { organizationId }` relation filter. -/
theorem apptInOrgB_eq_false {db : DB} (hwf : db.Wf) {a : Appointment} {c : Clinic}
    (hc : c ∈ db.clinics) (hcid : c.id = a.clinicId) {o : Nat}
    (horg : c.organizationId ≠ o) : apptInOrgB db a o = false := by
  rw [apptInOrgB, List.any_eq_false]
  intro c' hc'
  simp only [Bool.and_eq_true, beq_iff_eq, not_and]
  intro hid
  have hcc : c' = c := row_eq_of_id_eq hwf.clinics hc' hc (hid.trans hcid.symm)
  intro ho
  exact horg (hcc ▸ ho)

/-- An EHR record whose patient is outside the organization fails the
`patient: { clinic: { organizationId } }` relation filter. -/
theorem ehrInOrgB_eq_false {db : DB} (hwf : db.Wf) {e : EHRRecord} {p : Patient}
    (hp : p ∈ db.patients) (hpid : p.id = e.patientId) {o : Nat}
    (hpo : patientInOrgB db p o = false) : ehrInOrgB db e o = false := by
  rw [ehrInOrgB, List.any_eq_false]
  intro p' hp'
  simp only [Bool.and_eq_true, beq_iff_eq, not_and]
  intro hid
  have hpp : p' = p := row_eq_of_id_eq hwf.patients hp' hp (hid.trans hpid.symm)
  rw [hpp, hpo]
  simp

/-- C1: every entity of organization O1 (patient, appointment, EHR record,
clinic) requested by id by a caller whose resolved organization is a
different O2 yields the 404 not-found response of the respective handler —
never a 403 and never the entity payload. -/
theorem c1_cross_tenant_reads_not_found
    (db : DB) (hwf : db.Wf) (callerId : Nat)
    (caller : User) (org : Organization)
    (hpro : orgPrologue db callerId = .ready caller org)
    (c : Clinic) (hc : c ∈ db.clinics) (hcne : c.organizationId ≠ org.id)
    (p : Patient) (hp : p ∈ db.patients) (hpc : p.clinicId = c.id)
    (a : Appointment) (ha : a ∈ db.appointments) (hac : a.clinicId = c.id)
    (e : EHRRecord) (he : e ∈ db.ehrRecords) (hep : e.patientId = p.id) :
    getPatientById db callerId p.id = .err 404 "Patient not found"
      ∧ getAppointmentById db callerId a.id = .err 404 "Appointment not found"
      ∧ getEHRRecordById db callerId e.id = .err 404 "EHR record not found"
      ∧ getClinicById db callerId c.id = .err 404 "Clinic not found" := by
  have hpfalse : patientInOrgB db p org.id = false :=
    patientInOrgB_eq_false hwf hc hpc.symm hcne
  have hafalse : apptInOrgB db a org.id = false :=
    apptInOrgB_eq_false hwf hc hac.symm hcne
  have hefalse : ehrInOrgB db e org.id = false :=
    ehrInOrgB_eq_false hwf hp hep.symm hpfalse
  refine ⟨?_, ?_, ?_, ?_⟩
  · have hfind : db.patients.find? (fun q => q.id == p.id && patientInOrgB db q org.id) = none := by
      rw [List.find?_eq_none]
      intro q hq
      simp only [Bool.and_eq_true, beq_iff_eq, not_and]
      intro hid
      rw [row_eq_of_id_eq hwf.patients hq hp hid, hpfalse]
      simp
    simp only [getPatientById, hpro, hfind]
  · have hfind : db.appointments.find?
        (fun q => q.id == a.id && apptInOrgB db q org.id && doctorScopeB caller callerId q) = none := by
      rw [List.find?_eq_none]
      intro q hq
      simp only [Bool.and_eq_true, beq_iff_eq]
      rintro ⟨⟨hid, hin⟩, -⟩
      rw [row_eq_of_id_eq hwf.appointments hq ha hid, hafalse] at hin
      exact Bool.false_ne_true hin
    simp only [getAppointmentById, hpro, hfind]
  · have hfind : db.ehrRecords.find? (fun q => q.id == e.id && ehrInOrgB db q org.id) = none := by
      rw [List.find?_eq_none]
      intro q hq
      simp only [Bool.and_eq_true, beq_iff_eq, not_and]
      intro hid
      rw [row_eq_of_id_eq hwf.ehrRecords hq he hid, hefalse]
      simp
    simp only [getEHRRecordById, hpro, hfind]
  · have hfind : db.clinics.find? (fun q => q.id == c.id && q.organizationId == org.id) = none := by
      rw [List.find?_eq_none]
      intro q hq
      simp only [Bool.and_eq_true, beq_iff_eq, not_and]
      intro hid
      rw [row_eq_of_id_eq hwf.clinics hq hc hid]
      exact hcne
    simp only [getClinicById, hpro, hfind]

/-- Witness for C1 at a concrete two-organization database. -/
theorem c1_cross_tenant_reads_not_found_witness :
    getPatientById c1Db 10 200 = .err 404 "Patient not found"
      ∧ getAppointmentById c1Db 10 300 = .err 404 "Appointment not found"
      ∧ getEHRRecordById c1Db 10 400 = .err 404 "EHR record not found"
      ∧ getClinicById c1Db 10 100 = .err 404 "Clinic not found" :=
  c1_cross_tenant_reads_not_found c1Db
    ⟨by decide, by decide, by decide, by decide, by decide, by decide, by decide⟩
    10 c1Caller ⟨2⟩ rfl
    c1Clinic (by decide) (by decide)
    c1Patient (by decide) rfl
    c1Appt (by decide) rfl
    c1Ehr (by decide) rfl

/-- C2 counterexample: a DOCTOR caller who supplies the `doctor` query
filter with another doctor's id receives that doctor's appointments — the
`doctor` filter assignment replaces the role-based `doctorId = self`
restriction, so the claim fails for this filter combination. -/
theorem c2_doctor_sees_other_doctor_with_filter :
    (findUser c2Db 10).map User.role = some Role.DOCTOR
      ∧ getAppointments c2Db 10 c2OverrideFilters = .ok [c2OtherAppt]
      ∧ c2OtherAppt.doctorId ≠ 10 := by
  refine ⟨by decide, by decide, by decide⟩

/-- C2 (amended): when listing appointments, a DOCTOR caller who does not
supply the `doctor` query filter receives only appointments with
`doctorId = self`; when the `doctor` filter is supplied it replaces the
role restriction for every role; a STAFF or ADMIN caller without the
`doctor` filter receives exactly the organization's appointments matching
the supplied date/clinic/status filters. -/
theorem c2_role_scoping_amended
    (db : DB) (callerId : Nat) (caller : User) (org : Organization)
    (hpro : orgPrologue db callerId = .ready caller org)
    (f : ApptListFilters) (l : List Appointment)
    (hres : getAppointments db callerId f = .ok l) :
    (caller.role = .DOCTOR → f.doctor = none → ∀ x ∈ l, x.doctorId = callerId)
      ∧ (∀ d, f.doctor = some d → ∀ x ∈ l, x.doctorId = d)
      ∧ (caller.role ≠ .DOCTOR → f.doctor = none →
          ∀ x, x ∈ l ↔ x ∈ db.appointments
            ∧ apptInOrgB db x org.id = true
            ∧ (∀ d, f.date = some d → d ≤ x.appointmentDate ∧ x.appointmentDate < d + dayMs)
            ∧ (∀ cid, f.clinic = some cid → x.clinicId = cid)
            ∧ (∀ s, f.status = some s → x.status = s)) := by
  simp only [getAppointments, hpro, ApiResult.ok.injEq] at hres
  have hmem : ∀ x : Appointment,
      x ∈ l ↔ x ∈ db.appointments.filter (apptListWhere db caller callerId org.id f) := by
    intro x
    rw [← hres]
    exact (List.perm_insertionSort apptDateLE _).mem_iff
  refine ⟨?_, ?_, ?_⟩
  · intro hrole hdoc x hx
    have hfx := (hmem x).mp hx
    rw [List.mem_filter] at hfx
    have hpx := hfx.2
    simp only [apptListWhere, hdoc, doctorScopeB, hrole, Bool.and_eq_true, beq_iff_eq] at hpx
    exact hpx.1.1.1.2
  · intro d hd x hx
    have hfx := (hmem x).mp hx
    rw [List.mem_filter] at hfx
    have hpx := hfx.2
    simp only [apptListWhere, hd, Bool.and_eq_true, beq_iff_eq] at hpx
    exact hpx.1.1.1.2
  · intro hrole hdoc x
    have hds : ∀ y : Appointment, doctorScopeB caller callerId y = true := by
      intro y
      unfold doctorScopeB
      cases h : caller.role with
      | ADMIN => rfl
      | DOCTOR => exact absurd h hrole
      | STAFF => rfl
    rw [hmem x, List.mem_filter]
    constructor
    · rintro ⟨hxmem, hpx⟩
      simp only [apptListWhere, hdoc, Bool.and_eq_true, beq_iff_eq] at hpx
      obtain ⟨⟨⟨⟨hin, -⟩, hdate⟩, hclin⟩, hstat⟩ := hpx
      refine ⟨hxmem, hin, ?_, ?_, ?_⟩
      · intro d hd
        rw [hd] at hdate
        simp only [decide_eq_true_eq, Bool.and_eq_true] at hdate
        exact hdate
      · intro cid hcid
        rw [hcid] at hclin
        exact (beq_iff_eq.mp hclin)
      · intro s hs
        rw [hs] at hstat
        exact (beq_iff_eq.mp hstat).symm
    · rintro ⟨hxmem, hin, hdate, hclin, hstat⟩
      refine ⟨hxmem, ?_⟩
      simp only [apptListWhere, hdoc, Bool.and_eq_true, beq_iff_eq]
      refine ⟨⟨⟨⟨hin, ?_⟩, ?_⟩, ?_⟩, ?_⟩
      · rw [hds x]
      · cases hd : f.date with
        | none => rfl
        | some d =>
          have := hdate d hd
          simp only [decide_eq_true_eq, Bool.and_eq_true]
          exact this
      · cases hc : f.clinic with
        | none => rfl
        | some cid => exact beq_iff_eq.mpr (hclin cid hc)
      · cases hs : f.status with
        | none => rfl
        | some s => exact beq_iff_eq.mpr (hstat s hs).symm

/-- Witness for the amended C2: on `c2Db` the calling doctor, with no
filters, receives exactly their own appointment. -/
theorem c2_role_scoping_amended_witness :
    getAppointments c2Db 10 c2NoFilters = .ok c2DocList
      ∧ ∀ x ∈ c2DocList, x.doctorId = 10 :=
  ⟨rfl, (c2_role_scoping_amended c2Db 10 c2Doctor ⟨1⟩ rfl c2NoFilters c2DocList rfl).1 rfl rfl⟩

/-- The conflict lookup fires exactly when some appointment of the doctor —
other than the excluded row — has SCHEDULED/CONFIRMED status and a start
inside the closed symmetric window around `start`. -/
theorem conflictB_iff (db : DB) (docId : Nat) (excludeId : Option Nat) (start : Int) (dur : Nat) :
    conflictB db docId excludeId start dur = true ↔
      ∃ a ∈ db.appointments, a.doctorId = docId
        ∧ (∀ i, excludeId = some i → a.id ≠ i)
        ∧ start - dur * minuteMs ≤ a.appointmentDate
        ∧ a.appointmentDate ≤ start + dur * minuteMs
        ∧ isSchedOrConf a.status = true := by
  rw [conflictB, List.any_eq_true]
  constructor
  · rintro ⟨a, ha, hp⟩
    simp only [Bool.and_eq_true, beq_iff_eq, decide_eq_true_eq] at hp
    obtain ⟨⟨⟨⟨hdoc, hexcl⟩, hge⟩, hle⟩, hstat⟩ := hp
    refine ⟨a, ha, hdoc, ?_, hge, hle, hstat⟩
    intro i hi
    rw [hi] at hexcl
    simpa using hexcl
  · rintro ⟨a, ha, hdoc, hexcl, hge, hle, hstat⟩
    refine ⟨a, ha, ?_⟩
    simp only [Bool.and_eq_true, beq_iff_eq, decide_eq_true_eq]
    refine ⟨⟨⟨⟨hdoc, ?_⟩, hge⟩, hle⟩, hstat⟩
    cases he : excludeId with
    | none => rfl
    | some i => simpa using hexcl i he

/-- C3: creating an appointment is rejected with the conflict error whenever
another SCHEDULED/CONFIRMED appointment of the requested doctor starts
inside the closed window `[start - duration, start + duration]`; updating an
appointment with a new date is likewise rejected when a row other than the
appointment itself lies in the window; and when only the appointment's own
row lies in the window the update succeeds — the conflict lookup excludes
`id: { not: id }`. -/
theorem c3_scheduling_conflict_window
    (db : DB) (now : Int) (callerId : Nat) (caller : User) (org : Organization)
    (hpro : orgPrologue db callerId = .ready caller org) :
    (∀ (body : CreateApptBody) (newId : Nat),
      (∃ pt, db.patients.find? (fun p => p.id == body.patientId && patientInOrgB db p org.id) = some pt) →
      (∃ doc, db.users.find? (fun u =>
          u.id == body.doctorId && u.organizationId == some org.id
            && (match u.role with | .DOCTOR => true | _ => false)) = some doc) →
      (∃ cl, db.clinics.find? (fun c => c.id == body.clinicId && c.organizationId == org.id) = some cl) →
      now < body.appointmentDate →
      (∃ a ∈ db.appointments, a.doctorId = body.doctorId
        ∧ isSchedOrConf a.status = true
        ∧ body.appointmentDate - (jsOrNat body.duration 30) * minuteMs ≤ a.appointmentDate
        ∧ a.appointmentDate ≤ body.appointmentDate + (jsOrNat body.duration 30) * minuteMs) →
      createAppointment db now callerId body newId
        = (.err 400 "Doctor has a conflicting appointment at this time", db))
    ∧ (∀ (id : Nat) (body : UpdateApptBody) (existing : Appointment) (newDate : Int),
      db.appointments.find?
          (fun a => a.id == id && apptInOrgB db a org.id && doctorScopeB caller callerId a) = some existing →
      (∀ s, body.status = some s → validStatusStr s = true) →
      body.appointmentDate = some newDate →
      now < newDate →
      (∃ a ∈ db.appointments, a.id ≠ id
        ∧ a.doctorId = body.doctorId.getD existing.doctorId
        ∧ isSchedOrConf a.status = true
        ∧ newDate - (jsOrNat body.duration existing.duration) * minuteMs ≤ a.appointmentDate
        ∧ a.appointmentDate ≤ newDate + (jsOrNat body.duration existing.duration) * minuteMs) →
      updateAppointment db now callerId id body
        = (.err 400 "Doctor has a conflicting appointment at this time", db))
    ∧ (∀ (id : Nat) (body : UpdateApptBody) (existing : Appointment) (newDate : Int),
      db.appointments.find?
          (fun a => a.id == id && apptInOrgB db a org.id && doctorScopeB caller callerId a) = some existing →
      (∀ s, body.status = some s → validStatusStr s = true) →
      body.appointmentDate = some newDate →
      now < newDate →
      (∀ a ∈ db.appointments, a.id ≠ id →
        a.doctorId = body.doctorId.getD existing.doctorId →
        isSchedOrConf a.status = true →
        ¬(newDate - (jsOrNat body.duration existing.duration) * minuteMs ≤ a.appointmentDate
          ∧ a.appointmentDate ≤ newDate + (jsOrNat body.duration existing.duration) * minuteMs)) →
      updateAppointment db now callerId id body
        = (.ok (mergeApptUpdate existing body),
           { db with appointments :=
              db.appointments.map (fun a => if a.id == id then mergeApptUpdate existing body else a) })) := by
  refine ⟨?_, ?_, ?_⟩
  · rintro body newId ⟨pt, hpat⟩ ⟨doc, hdoc⟩ ⟨cl, hclin⟩ hfut hconf
    have hc : conflictB db body.doctorId none body.appointmentDate (jsOrNat body.duration 30) = true := by
      rw [conflictB_iff]
      obtain ⟨a, ha, h1, h2, h3, h4⟩ := hconf
      exact ⟨a, ha, h1, by rintro i ⟨⟩, h3, h4, h2⟩
    simp only [createAppointment, hpro, hpat, hdoc, hclin, hc]
    rw [if_neg (not_le.mpr hfut)]
    simp
  · rintro id body existing newDate hfind hstat hdate hfut hconf
    have hguard : (match body.status with
        | some s => !(validStatusStr s)
        | none => false) = false := by
      cases hb : body.status with
      | none => rfl
      | some s => simp [hstat s hb]
    have hc : conflictB db (body.doctorId.getD existing.doctorId) (some id) newDate
        (jsOrNat body.duration existing.duration) = true := by
      rw [conflictB_iff]
      obtain ⟨a, ha, h0, h1, h2, h3, h4⟩ := hconf
      exact ⟨a, ha, h1, by rintro i hi; cases hi; exact h0, h3, h4, h2⟩
    simp only [updateAppointment, hpro, hfind, hguard, hdate, hc]
    rw [if_neg (not_le.mpr hfut)]
    simp
  · rintro id body existing newDate hfind hstat hdate hfut hnoconf
    have hguard : (match body.status with
        | some s => !(validStatusStr s)
        | none => false) = false := by
      cases hb : body.status with
      | none => rfl
      | some s => simp [hstat s hb]
    have hc : conflictB db (body.doctorId.getD existing.doctorId) (some id) newDate
        (jsOrNat body.duration existing.duration) = false := by
      rw [← Bool.not_eq_true, conflictB_iff]
      rintro ⟨a, ha, hdoc, hexcl, hge, hle, hs⟩
      exact hnoconf a ha (hexcl id rfl) hdoc hs ⟨hge, hle⟩
    simp only [updateAppointment, hpro, hfind, hguard, hdate, hc]
    rw [if_neg (not_le.mpr hfut)]
    simp

/-- Witness for C3 on `c3Db`: a create inside appointment A's window and an
update of A inside B's window are both rejected; an update of B whose window
contains only B's own old slot succeeds. -/
theorem c3_scheduling_conflict_window_witness :
    createAppointment c3Db 0 10 c3CreateBody 999
        = (.err 400 "Doctor has a conflicting appointment at this time", c3Db)
      ∧ updateAppointment c3Db 0 10 300 c3UpdConflictBody
        = (.err 400 "Doctor has a conflicting appointment at this time", c3Db)
      ∧ updateAppointment c3Db 0 10 301 c3UpdOwnBody
        = (.ok (mergeApptUpdate c3ApptB c3UpdOwnBody),
           { c3Db with appointments :=
              c3Db.appointments.map (fun a => if a.id == 301 then mergeApptUpdate c3ApptB c3UpdOwnBody else a) }) := by
  obtain ⟨h1, h2, h3⟩ := c3_scheduling_conflict_window c3Db 0 10 c3Staff ⟨1⟩ rfl
  refine ⟨?_, ?_, ?_⟩
  · exact h1 c3CreateBody 999 ⟨_, rfl⟩ ⟨_, rfl⟩ ⟨_, rfl⟩ (by decide)
      ⟨c3ApptA, by decide, by decide, by decide, by decide, by decide⟩
  · exact h2 300 c3UpdConflictBody c3ApptA 101000000 (by decide) (by rintro s ⟨⟩) rfl (by decide)
      ⟨c3ApptB, by decide, by decide, by decide, by decide, by decide, by decide⟩
  · exact h3 301 c3UpdOwnBody c3ApptB 102000000 (by decide) (by rintro s ⟨⟩) rfl (by decide)
      (by decide)

/-- C4: creating a patient with a phone already held inside the organization
is rejected with the duplicate error; updating a patient onto a phone held
by a different patient of the organization is rejected; updating a patient
while keeping its own phone bypasses the duplicate check and succeeds. -/
theorem c4_duplicate_phone
    (db : DB) (callerId : Nat) (caller : User) (org : Organization)
    (hpro : orgPrologue db callerId = .ready caller org) :
    (∀ (body : CreatePatientBody) (newId : Nat),
      validPhone body.phone = true →
      (∃ p1 ∈ db.patients, p1.phone = body.phone ∧ patientInOrgB db p1 org.id = true) →
      createPatient db callerId body newId
        = (.err 400 "Patient with this phone number already exists", db))
    ∧ (∀ (id : Nat) (body : UpdatePatientBody) (existing : Patient) (newPhone : String),
      db.patients.find? (fun p => p.id == id && patientInOrgB db p org.id) = some existing →
      body.phone = some newPhone →
      newPhone ≠ existing.phone →
      validPhone newPhone = true →
      (∃ p1 ∈ db.patients, p1.phone = newPhone ∧ p1.id ≠ id ∧ patientInOrgB db p1 org.id = true) →
      updatePatient db callerId id body
        = (.err 400 "Another patient with this phone number already exists", db))
    ∧ (∀ (id : Nat) (body : UpdatePatientBody) (existing : Patient),
      db.patients.find? (fun p => p.id == id && patientInOrgB db p org.id) = some existing →
      body.phone = some existing.phone →
      updatePatient db callerId id body
        = (.ok (mergePatientUpdate existing body),
           { db with patients :=
              db.patients.map (fun p => if p.id == id then mergePatientUpdate existing body else p) })) := by
  refine ⟨?_, ?_, ?_⟩
  · rintro body newId hvp ⟨p1, hp1, hphone, hin⟩
    have hdup : (db.patients.find? (fun p => p.phone == body.phone && patientInOrgB db p org.id)).isSome = true := by
      rw [List.find?_isSome]
      exact ⟨p1, hp1, by simp [hphone, hin]⟩
    obtain ⟨q, hq⟩ := Option.isSome_iff_exists.mp hdup
    simp only [createPatient, hpro, hvp, hq]
    simp
  · rintro id body existing newPhone hfind hnp hneq hvp ⟨p1, hp1, hphone, hnotid, hin⟩
    have hdup : (db.patients.find? (fun p =>
        p.phone == newPhone && !(p.id == id) && patientInOrgB db p org.id)).isSome = true := by
      rw [List.find?_isSome]
      exact ⟨p1, hp1, by simp [hphone, hin, hnotid]⟩
    obtain ⟨q, hq⟩ := Option.isSome_iff_exists.mp hdup
    have hne : (newPhone == existing.phone) = false := by
      simp [hneq]
    simp only [updatePatient, hpro, hfind, hnp, hne, hvp, hq]
    simp
  · rintro id body existing hfind hnp
    have hsame : (existing.phone == existing.phone) = true := by simp
    simp only [updatePatient, hpro, hfind, hnp, hsame]
    simp

/-- Witness for C4 on `c4Db`: create with P1's phone rejected, moving P2
onto P1's phone rejected, updating P1 with its own phone accepted. -/
theorem c4_duplicate_phone_witness :
    createPatient c4Db 10 c4CreateBody 999
        = (.err 400 "Patient with this phone number already exists", c4Db)
      ∧ updatePatient c4Db 10 201 c4UpdDupBody
        = (.err 400 "Another patient with this phone number already exists", c4Db)
      ∧ updatePatient c4Db 10 200 c4UpdDupBody
        = (.ok (mergePatientUpdate c4P1 c4UpdDupBody),
           { c4Db with patients :=
              c4Db.patients.map (fun p => if p.id == 200 then mergePatientUpdate c4P1 c4UpdDupBody else p) }) := by
  obtain ⟨h1, h2, h3⟩ := c4_duplicate_phone c4Db 10
    { id := 10, email := "staff4@example.com", organizationId := some 1, role := .STAFF } ⟨1⟩ rfl
  refine ⟨?_, ?_, ?_⟩
  · exact h1 c4CreateBody 999 (by decide) ⟨c4P1, by decide, by decide, by decide⟩
  · exact h2 201 c4UpdDupBody c4P2 "9876543210" (by decide) rfl (by decide) (by decide)
      ⟨c4P1, by decide, by decide, by decide, by decide⟩
  · exact h3 200 c4UpdDupBody c4P1 (by decide) (by decide)

/-- Unfolding of the admin-count predicate. -/
theorem isOrgAdminB_iff (oid : Nat) (u : User) :
    isOrgAdminB oid u = true ↔ u.organizationId = some oid ∧ u.role = .ADMIN := by
  unfold isOrgAdminB
  cases h : u.role <;> simp [h]

/-- Clearing the target's organization then testing the admin predicate is
the same as testing it on rows other than the target. -/
theorem isOrgAdminB_after_clear (t oid : Nat) (u : User) :
    isOrgAdminB oid (if u.id == t then { u with organizationId := none } else u)
      = (!(u.id == t) && isOrgAdminB oid u) := by
  by_cases h : u.id = t
  · simp [h, isOrgAdminB]
  · simp [h]

/-- Admin count after the remove-user update: the non-target admins. -/
theorem countOrgAdmins_after_remove (l : List User) (t oid : Nat) :
    ((l.map (fun u => if u.id == t then { u with organizationId := none } else u)).filter
        (isOrgAdminB oid)).length
      = (l.filter (fun u => !(u.id == t) && isOrgAdminB oid u)).length := by
  rw [List.filter_map, List.length_map]
  congr 1
  apply List.filter_congr
  intro u _
  exact isOrgAdminB_after_clear t oid u

/-- A filtered count splits along any boolean test. -/
theorem length_filter_split {α : Type} (l : List α) (p q : α → Bool) :
    (l.filter p).length
      = (l.filter (fun x => !(q x) && p x)).length + (l.filter (fun x => q x && p x)).length := by
  induction l with
  | nil => rfl
  | cons x l ih =>
    simp only [List.filter_cons]
    cases hq : q x <;> cases hp : p x <;> simp [hq, hp, ih] <;> omega

/-- With unique ids, at most one row matches an id-equality filter. -/
theorem length_filter_idmatch_le_one {l : List User} (h : (l.map User.id).Nodup)
    (t : Nat) (p : User → Bool) :
    (l.filter (fun u => (u.id == t) && p u)).length ≤ 1 := by
  induction l with
  | nil => simp
  | cons u l ih =>
    rw [List.map_cons, List.nodup_cons] at h
    obtain ⟨hniu, hnd⟩ := h
    rw [List.filter_cons]
    cases hc : ((u.id == t) && p u) with
    | false => simpa using ih hnd
    | true =>
      have hut : u.id = t := beq_iff_eq.mp (Bool.and_eq_true .. |>.mp hc).1
      have hrest : l.filter (fun v => (v.id == t) && p v) = [] := by
        rw [List.filter_eq_nil_iff]
        intro v hv hvc
        apply hniu
        rw [List.mem_map]
        refine ⟨v, hv, ?_⟩
        have : v.id = t := beq_iff_eq.mp (Bool.and_eq_true .. |>.mp hvc).1
        rw [this, hut]
      simp [hrest]

/-- A positive id-equality filter count exhibits a matching row. -/
theorem exists_of_filter_idmatch_pos {l : List User} {t : Nat} {p : User → Bool}
    (h : 0 < (l.filter (fun u => (u.id == t) && p u)).length) :
    ∃ u ∈ l, u.id = t ∧ p u = true := by
  cases hl : l.filter (fun u => (u.id == t) && p u) with
  | nil => rw [hl] at h; simp at h
  | cons a rest =>
    have ha : a ∈ l.filter (fun u => (u.id == t) && p u) := by
      rw [hl]; exact List.mem_cons_self a rest
    rw [List.mem_filter] at ha
    obtain ⟨h1, h2⟩ := Bool.and_eq_true .. |>.mp ha.2
    exact ⟨a, ha.1, beq_iff_eq.mp h1, h2⟩

/-- C5: removing a user is rejected when the target is an ADMIN and the
organization has at most one ADMIN; it succeeds (clearing the target's
organization) when the target is a non-ADMIN or at least two ADMINs exist;
and, over any removal call, an organization with at least one ADMIN retains
at least one ADMIN. -/
theorem c5_last_admin_protected
    (db : DB) (adminUserId targetUserId : Nat) (caller : User) (org : Organization)
    (hpro : orgPrologue db adminUserId = .ready caller org) :
    (∀ targetUser,
      db.users.find? (fun u => u.id == targetUserId && u.organizationId == some org.id)
        = some targetUser →
      targetUser.role = .ADMIN → countOrgAdmins db org.id ≤ 1 →
      removeUserFromOrganization db adminUserId targetUserId
        = (.err 400 "Cannot remove the last admin from organization", db))
    ∧ (∀ targetUser,
      db.users.find? (fun u => u.id == targetUserId && u.organizationId == some org.id)
        = some targetUser →
      (targetUser.role ≠ .ADMIN ∨ 2 ≤ countOrgAdmins db org.id) →
      removeUserFromOrganization db adminUserId targetUserId
        = (.ok "User removed from organization",
           { db with users := db.users.map (fun u =>
              if u.id == targetUserId then { u with organizationId := none } else u) }))
    ∧ ((db.users.map User.id).Nodup →
      ∀ oid, 1 ≤ countOrgAdmins db oid →
        1 ≤ countOrgAdmins (removeUserFromOrganization db adminUserId targetUserId).2 oid) := by
  refine ⟨?_, ?_, ?_⟩
  · intro targetUser hfind htr hcount
    simp only [removeUserFromOrganization, hpro, hfind]
    rw [if_pos ⟨htr, hcount⟩]
  · intro targetUser hfind hok
    simp only [removeUserFromOrganization, hpro, hfind]
    rw [if_neg]
    rintro ⟨h1, h2⟩
    rcases hok with h | h
    · exact h h1
    · omega
  · intro hnd oid hpre
    cases hfind : db.users.find?
        (fun u => u.id == targetUserId && u.organizationId == some org.id) with
    | none =>
      simp only [removeUserFromOrganization, hpro, hfind]
      exact hpre
    | some targetUser =>
      by_cases hguard : targetUser.role = .ADMIN ∧ countOrgAdmins db org.id ≤ 1
      · simp only [removeUserFromOrganization, hpro, hfind]
        rw [if_pos hguard]
        exact hpre
      · simp only [removeUserFromOrganization, hpro, hfind]
        rw [if_neg hguard]
        show 1 ≤ countOrgAdmins { db with users := _ } oid
        unfold countOrgAdmins at hpre ⊢
        rw [countOrgAdmins_after_remove]
        have hsplit := length_filter_split db.users (isOrgAdminB oid) (fun u => u.id == targetUserId)
        have hle1 := length_filter_idmatch_le_one hnd targetUserId (isOrgAdminB oid)
        by_cases hct :
            0 < (db.users.filter (fun u => (u.id == targetUserId) && isOrgAdminB oid u)).length
        · obtain ⟨u, hu, huid, hup⟩ := exists_of_filter_idmatch_pos hct
          have htmem := List.mem_of_find?_eq_some hfind
          have htpred := List.find?_some hfind
          simp only [Bool.and_eq_true, beq_iff_eq] at htpred
          obtain ⟨htid, htorg⟩ := htpred
          have huu : u = targetUser := row_eq_of_id_eq hnd hu htmem (huid.trans htid.symm)
          rw [huu] at hup
          rw [isOrgAdminB_iff] at hup
          obtain ⟨hoid, hrole⟩ := hup
          have hoo : oid = org.id := Option.some_inj.mp (hoid.symm.trans htorg)
          have hge2 : 2 ≤ countOrgAdmins db org.id := by
            rcases not_and_or.mp hguard with h | h
            · exact absurd hrole h
            · omega
          unfold countOrgAdmins at hge2
          rw [hoo] at hsplit hle1 hct ⊢
          omega
        · rw [hsplit] at hpre
          omega

/-- Witness for C5: removing the sole admin of `c5DbOne` is rejected;
removing one of the two admins of `c5Db` succeeds, and organization 1 still
counts at least one admin afterwards. -/
theorem c5_last_admin_protected_witness :
    removeUserFromOrganization c5DbOne 10 10
        = (.err 400 "Cannot remove the last admin from organization", c5DbOne)
      ∧ removeUserFromOrganization c5Db 10 11
        = (.ok "User removed from organization",
           { c5Db with users := c5Db.users.map (fun u =>
              if u.id == 11 then { u with organizationId := none } else u) })
      ∧ 1 ≤ countOrgAdmins (removeUserFromOrganization c5Db 10 11).2 1 := by
  obtain ⟨hA, -, -⟩ := c5_last_admin_protected c5DbOne 10 10
    { id := 10, email := "admin10@example.com", organizationId := some 1, role := .ADMIN } ⟨1⟩ rfl
  obtain ⟨-, hB, hC⟩ := c5_last_admin_protected c5Db 10 11
    { id := 10, email := "admin10@example.com", organizationId := some 1, role := .ADMIN } ⟨1⟩ rfl
  refine ⟨?_, ?_, ?_⟩
  · exact hA _ rfl rfl (by decide)
  · exact hB _ rfl (Or.inr (by decide))
  · exact hC (by decide) 1 (by decide)

/-- Shape of a successful join: the invite was found by token and unused,
and the output state carries the invite marked used. -/
theorem joinOrganization_ok_shape
    (db : DB) (now : Int) (token : String) (callerId : Nat) (res : String) (db2 : DB)
    (h : joinOrganization db now token callerId = (.ok res, db2)) :
    ∃ invite, db.invites.find? (fun i => i.token == token) = some invite
      ∧ invite.isUsed = false
      ∧ db2.invites = db.invites.map
          (fun i => if i.id == invite.id then { i with isUsed := true } else i) := by
  simp only [joinOrganization] at h
  split at h
  · simp at h
  · next invite hfind =>
    split at h
    · simp at h
    · next hused =>
      split at h
      · simp at h
      · split at h
        · simp at h
        · next user hu =>
          split at h
          · simp at h
          · split at h
            · simp at h
            · next o hfo =>
              simp only [Prod.mk.injEq, ApiResult.ok.injEq] at h
              exact ⟨invite, hfind, Bool.eq_false_iff.mpr hused, by rw [← h.2]⟩

/-- C6: a consumed invite token is rejected with the used error and changes
nothing; a token more than 7 days past its creation (its stored expiry) is
rejected with the expired error and changes nothing; after any successful
join, every later join with the same token is rejected as used and changes
nothing; and every invite `inviteUser` creates carries
`expiresAt = createdAt + 7 days`. -/
theorem c6_invite_single_use (db : DB) (now : Int) (token : String) (callerId : Nat) :
    (∀ invite, db.invites.find? (fun i => i.token == token) = some invite →
      invite.isUsed = true →
      joinOrganization db now token callerId
        = (.err 400 "Invitation has already been used", db))
    ∧ (∀ invite, db.invites.find? (fun i => i.token == token) = some invite →
      invite.isUsed = false →
      invite.expiresAt = invite.createdAt + 7 * dayMs →
      invite.createdAt + 7 * dayMs < now →
      joinOrganization db now token callerId = (.err 400 "Invitation has expired", db))
    ∧ (∀ (res : String) (db2 : DB), joinOrganization db now token callerId = (.ok res, db2) →
      ∀ (now2 : Int) (callerId2 : Nat),
        joinOrganization db2 now2 token callerId2
          = (.err 400 "Invitation has already been used", db2))
    ∧ (∀ (email : String) (role : Option Role) (newId : Nat) (res : String) (db2 : DB),
        inviteUser db now callerId email role token newId = (.ok res, db2) →
        ∀ i ∈ db2.invites, i ∉ db.invites → i.expiresAt = i.createdAt + 7 * dayMs) := by
  refine ⟨?_, ?_, ?_, ?_⟩
  · intro invite hfind hused
    simp [joinOrganization, hfind, hused]
  · intro invite hfind hused hexp7 hlt
    have hexp : invite.expiresAt < now := by rw [hexp7]; exact hlt
    simp [joinOrganization, hfind, hused, hexp]
  · intro res db2 hsucc now2 callerId2
    obtain ⟨invite, hfind, hunused, hinv⟩ :=
      joinOrganization_ok_shape db now token callerId res db2 hsucc
    have hfind2 : db2.invites.find? (fun i => i.token == token)
        = some { invite with isUsed := true } := by
      rw [hinv, List.find?_map]
      have hpg : ((fun i : Invite => i.token == token) ∘
          (fun i => if i.id == invite.id then { i with isUsed := true } else i))
          = (fun i : Invite => i.token == token) := by
        funext i
        by_cases hid : i.id = invite.id
        · simp [Function.comp, hid]
        · simp [Function.comp, hid]
      rw [hpg, hfind]
      simp
    simp [joinOrganization, hfind2]
  · intro email role newId res db2 hsucc i hi hnew
    simp only [inviteUser] at hsucc
    split at hsucc
    · simp at hsucc
    · simp at hsucc
    · split at hsucc
      · simp at hsucc
      · split at hsucc
        · simp at hsucc
        · simp only [Prod.mk.injEq, ApiResult.ok.injEq] at hsucc
          rw [← hsucc.2] at hi
          simp only [List.mem_append, List.mem_singleton] at hi
          rcases hi with hi | hi
          · exact absurd hi hnew
          · rw [hi]

/-- Witness for C6 on `c6Db`: the used token and the stale token are
rejected unchanged; consuming the live token makes its replay fail as used;
a freshly created invite carries the 7-day expiry. -/
theorem c6_invite_single_use_witness :
    joinOrganization c6Db 100 "tokU" 50 = (.err 400 "Invitation has already been used", c6Db)
      ∧ joinOrganization c6Db (7 * dayMs + 1) "tokE" 50
          = (.err 400 "Invitation has expired", c6Db)
      ∧ joinOrganization (joinOrganization c6Db 100 "tokF" 50).2 0 "tokF" 99
          = (.err 400 "Invitation has already been used", (joinOrganization c6Db 100 "tokF" 50).2)
      ∧ (∀ i ∈ (inviteUser c6Db 500 10 "new@example.com" none "tokN" 9).2.invites,
          i ∉ c6Db.invites → i.expiresAt = i.createdAt + 7 * dayMs) := by
  refine ⟨?_, ?_, ?_, ?_⟩
  · exact (c6_invite_single_use c6Db 100 "tokU" 50).1 c6UsedInv rfl rfl
  · exact (c6_invite_single_use c6Db (7 * dayMs + 1) "tokE" 50).2.1 c6ExpInv rfl rfl rfl (by decide)
  · exact (c6_invite_single_use c6Db 100 "tokF" 50).2.2.1 "Successfully joined organization"
      (joinOrganization c6Db 100 "tokF" 50).2 rfl 0 99
  · exact (c6_invite_single_use c6Db 500 "tokN" 10).2.2.2 "new@example.com" none 9
      "Invitation sent successfully" (inviteUser c6Db 500 10 "new@example.com" none "tokN" 9).2 rfl

/-- C7 counterexample: a restore whose payload fails the top-level shape
check returns before the restore-point snapshot is created — this run of
restore creates no Backup record at all, so the claim's "every invocation
... including runs that fail validation" is false. -/
theorem c7_no_snapshot_on_invalid_payload :
    restoreBackup c7Db 10 (some c7BadPayload) 999
        = (.err 400 "Invalid backup data format", c7Db)
      ∧ c7Db.backups = [] := by
  refine ⟨by decide, rfl⟩

/-- C7 (amended): when the payload passes the shape check, restore creates
a Backup record whose content snapshots the pre-restore state, before the
incoming data is applied; when the shape check fails, the call returns the
validation error with the state — including the backups table — unchanged. -/
theorem c7_restore_point_before_apply_amended
    (db : DB) (callerId : Nat) (caller : User) (org : Organization)
    (hpro : orgPrologue db callerId = .ready caller org)
    (newBackupId : Nat) :
    (∀ (payload : BackupPayload) (o : Organization) (ps : List Patient) (aps : List Appointment),
      payload.organization = some o → payload.patients = some ps →
      payload.appointments = some aps →
      (restoreBackup db callerId (some payload) newBackupId).1
          = .ok { patients := ps.length, appointments := aps.length }
        ∧ (restoreBackup db callerId (some payload) newBackupId).2.backups
          = db.backups ++
            [{ id := newBackupId, organizationId := org.id,
               content := generateLocalBackup db org.id, createdBy := callerId }])
    ∧ (∀ payload : BackupPayload,
      payload.organization = none ∨ payload.patients = none ∨ payload.appointments = none →
      restoreBackup db callerId (some payload) newBackupId
        = (.err 400 "Invalid backup data format", db)) := by
  refine ⟨?_, ?_⟩
  · intro payload o ps aps ho hp ha
    refine ⟨?_, ?_⟩
    · simp [restoreBackup, hpro, ho, hp, ha, restoreFromBackup]
    · simp [restoreBackup, hpro, ho, hp, ha, restoreFromBackup]
  · intro payload hmiss
    rcases hmiss with h | h | h
    · simp [restoreBackup, hpro, h]
    · simp [restoreBackup, hpro, h]
    · simp [restoreBackup, hpro, h]

/-- Witness for the amended C7: a well-shaped restore on `c7Db` succeeds
and appends the pre-state snapshot as a new Backup record. -/
theorem c7_restore_point_before_apply_amended_witness :
    (restoreBackup c7Db 10 (some c7GoodPayload) 999).1
        = .ok { patients := 0, appointments := 0 }
      ∧ (restoreBackup c7Db 10 (some c7GoodPayload) 999).2.backups
        = c7Db.backups ++
          [{ id := 999, organizationId := 1,
             content := generateLocalBackup c7Db 1, createdBy := 10 }] :=
  (c7_restore_point_before_apply_amended c7Db 10
      { id := 10, email := "admin7@example.com", organizationId := some 1, role := .ADMIN }
      ⟨1⟩ rfl 999).1 c7GoodPayload ⟨1⟩ [] [] rfl rfl rfl

/-- C8: cancelling an in-scope appointment is rejected — with the state
unchanged — when its start is not strictly in the future or its status is
already COMPLETED/CANCELLED; otherwise the appointment's status is set to
CANCELLED. -/
theorem c8_cancel_guards
    (db : DB) (now : Int) (callerId : Nat) (caller : User) (org : Organization)
    (hpro : orgPrologue db callerId = .ready caller org) :
    (∀ (id : Nat) (appt : Appointment),
      db.appointments.find?
          (fun a => a.id == id && apptInOrgB db a org.id && doctorScopeB caller callerId a)
        = some appt →
      appt.appointmentDate ≤ now →
      deleteAppointment db now callerId id = (.err 400 "Cannot cancel past appointments", db))
    ∧ (∀ (id : Nat) (appt : Appointment),
      db.appointments.find?
          (fun a => a.id == id && apptInOrgB db a org.id && doctorScopeB caller callerId a)
        = some appt →
      now < appt.appointmentDate →
      isFinalized appt.status = true →
      deleteAppointment db now callerId id
        = (.err 400 "Appointment is already completed or cancelled", db))
    ∧ (∀ (id : Nat) (appt : Appointment),
      db.appointments.find?
          (fun a => a.id == id && apptInOrgB db a org.id && doctorScopeB caller callerId a)
        = some appt →
      now < appt.appointmentDate →
      isFinalized appt.status = false →
      deleteAppointment db now callerId id
        = (.ok "Appointment cancelled successfully",
           { db with appointments := db.appointments.map (fun a =>
              if a.id == id then { a with status := .CANCELLED } else a) })) := by
  refine ⟨?_, ?_, ?_⟩
  · intro id appt hfind hpast
    simp only [deleteAppointment, hpro, hfind]
    rw [if_pos hpast]
  · intro id appt hfind hfut hfin
    simp only [deleteAppointment, hpro, hfind]
    rw [if_neg (not_le.mpr hfut)]
    simp [hfin]
  · intro id appt hfind hfut hfin
    simp only [deleteAppointment, hpro, hfind]
    rw [if_neg (not_le.mpr hfut)]
    simp [hfin]

/-- Witness for C8 on `c8Db` at `now = 0`: the past appointment and the
completed appointment are rejected unchanged; the live one is cancelled. -/
theorem c8_cancel_guards_witness :
    deleteAppointment c8Db 0 10 300 = (.err 400 "Cannot cancel past appointments", c8Db)
      ∧ deleteAppointment c8Db 0 10 301
        = (.err 400 "Appointment is already completed or cancelled", c8Db)
      ∧ deleteAppointment c8Db 0 10 302
        = (.ok "Appointment cancelled successfully",
           { c8Db with appointments := c8Db.appointments.map (fun a =>
              if a.id == 302 then { a with status := .CANCELLED } else a) }) := by
  obtain ⟨h1, h2, h3⟩ := c8_cancel_guards c8Db 0 10
    { id := 10, email := "staff8@example.com", organizationId := some 1, role := .STAFF } ⟨1⟩ rfl
  exact ⟨h1 300 c8Past rfl (by decide), h2 301 c8Done rfl (by decide) rfl,
    h3 302 c8Live rfl (by decide) rfl⟩

/-- C9: updating an in-scope appointment with only a status accepts every
target in the six-value set regardless of the current status — including
SCHEDULED directly to COMPLETED and CANCELLED back to SCHEDULED — writing
the new status; a status string outside the set is the only status
rejection. -/
theorem c9_status_transitions_unrestricted
    (db : DB) (now : Int) (callerId : Nat) (caller : User) (org : Organization)
    (hpro : orgPrologue db callerId = .ready caller org) :
    (∀ (id : Nat) (existing : Appointment) (s : String) (target : ApptStatus),
      db.appointments.find?
          (fun a => a.id == id && apptInOrgB db a org.id && doctorScopeB caller callerId a)
        = some existing →
      statusOfString s = some target →
      updateAppointment db now callerId id (statusOnlyBody s)
        = (.ok { existing with status := target },
           { db with appointments := db.appointments.map (fun a =>
              if a.id == id then { existing with status := target } else a) }))
    ∧ (∀ (id : Nat) (existing : Appointment) (s : String),
      db.appointments.find?
          (fun a => a.id == id && apptInOrgB db a org.id && doctorScopeB caller callerId a)
        = some existing →
      statusOfString s = none →
      updateAppointment db now callerId id (statusOnlyBody s)
        = (.err 400 "Invalid appointment status", db)) := by
  refine ⟨?_, ?_⟩
  · intro id existing s target hfind hstat
    have hv : validStatusStr s = true := by rw [validStatusStr, hstat]; rfl
    simp [updateAppointment, hpro, hfind, statusOnlyBody, hv, mergeApptUpdate, hstat]
  · intro id existing s hfind hstat
    have hv : validStatusStr s = false := by rw [validStatusStr, hstat]; rfl
    simp [updateAppointment, hpro, hfind, statusOnlyBody, hv]

/-- Witness for C9 on `c9Db`: SCHEDULED jumps directly to COMPLETED,
CANCELLED returns to SCHEDULED, and an unknown status string is rejected. -/
theorem c9_status_transitions_unrestricted_witness :
    updateAppointment c9Db 0 10 300 (statusOnlyBody "COMPLETED")
        = (.ok { c9Sched with status := .COMPLETED },
           { c9Db with appointments := c9Db.appointments.map (fun a =>
              if a.id == 300 then { c9Sched with status := .COMPLETED } else a) })
      ∧ updateAppointment c9Db 0 10 301 (statusOnlyBody "SCHEDULED")
        = (.ok { c9Canc with status := .SCHEDULED },
           { c9Db with appointments := c9Db.appointments.map (fun a =>
              if a.id == 301 then { c9Canc with status := .SCHEDULED } else a) })
      ∧ updateAppointment c9Db 0 10 300 (statusOnlyBody "BOGUS")
        = (.err 400 "Invalid appointment status", c9Db) := by
  obtain ⟨h1, h2⟩ := c9_status_transitions_unrestricted c9Db 0 10
    { id := 10, email := "staff9@example.com", organizationId := some 1, role := .STAFF } ⟨1⟩ rfl
  exact ⟨h1 300 c9Sched "COMPLETED" .COMPLETED rfl rfl,
    h1 301 c9Canc "SCHEDULED" .SCHEDULED rfl rfl,
    h2 300 c9Sched "BOGUS" rfl rfl⟩

/-- Toggling `isActive` on one organization's add-on rows: every row of the
organization carries the new flag, usage counters are untouched, and rows
of other organizations are untouched. -/
theorem addon_toggle_props (l : List OrganizationAddOn) (target : Nat) (b : Bool) :
    (∀ oa ∈ l.map (fun oa =>
        if oa.organizationId == target then { oa with isActive := b } else oa),
      oa.organizationId = target → oa.isActive = b)
    ∧ (l.map (fun oa =>
        if oa.organizationId == target then { oa with isActive := b } else oa)).map
          (fun oa => oa.usageCount) = l.map (fun oa => oa.usageCount)
    ∧ (l.map (fun oa =>
        if oa.organizationId == target then { oa with isActive := b } else oa)).filter
          (fun oa => !(oa.organizationId == target))
      = l.filter (fun oa => !(oa.organizationId == target)) := by
  refine ⟨?_, ?_, ?_⟩
  · intro oa hoa htar
    rw [List.mem_map] at hoa
    obtain ⟨x, hx, rfl⟩ := hoa
    by_cases h : x.organizationId = target
    · simp [h]
    · have hfx : (if x.organizationId == target then { x with isActive := b } else x) = x := by
        simp [h]
      rw [hfx] at htar
      exact absurd htar h
  · induction l with
    | nil => rfl
    | cons x l ih =>
      simp only [List.map_cons]
      rw [ih]
      congr 1
      by_cases h : x.organizationId = target
      · simp [h]
      · simp [h]
  · rw [List.filter_map]
    have h1 : l.filter ((fun oa => !(oa.organizationId == target)) ∘ (fun oa =>
        if oa.organizationId == target then { oa with isActive := b } else oa))
        = l.filter (fun oa => !(oa.organizationId == target)) := by
      apply List.filter_congr
      intro x _
      by_cases h : x.organizationId = target
      · simp [Function.comp, h]
      · simp [Function.comp, h]
    rw [h1]
    have h2 : ∀ y ∈ l.filter (fun oa => !(oa.organizationId == target)),
        (if y.organizationId == target then { y with isActive := b } else y) = id y := by
      intro y hy
      rw [List.mem_filter] at hy
      have hyne : ¬(y.organizationId = target) := by
        intro hc
        simp [hc] at hy
      simp [hyne]
    rw [List.map_congr_left h2, List.map_id]

/-- State shape of the webhook handler on `subscription.cancelled` when a
stored subscription matches the provider id. -/
theorem handleWebhook_cancelled_state
    (db : DB) (now : Int) (rid : Nat) (sig : String) (sub : Subscription)
    (hsub : db.subscriptions.find? (fun s => s.razorpaySubscriptionId == rid) = some sub) :
    handleRazorpayWebhook db now { event := .cancelled, subscriptionId := rid } sig
      = (.ok "ok",
         { db with
            subscriptions := db.subscriptions.map (fun s =>
              if s.razorpaySubscriptionId == rid then
                { s with status := .CANCELLED, endDate := some now }
              else s),
            organizationAddOns := db.organizationAddOns.map (fun oa =>
              if oa.organizationId == sub.organizationId then
                { oa with isActive := false }
              else oa) }) := by
  have hpg : ((fun s : Subscription => s.razorpaySubscriptionId == rid) ∘ (fun s =>
      if s.razorpaySubscriptionId == rid then
        { s with status := SubStatus.CANCELLED, endDate := some now }
      else s)) = (fun s : Subscription => s.razorpaySubscriptionId == rid) := by
    funext s
    by_cases h : s.razorpaySubscriptionId = rid
    · simp [Function.comp, h]
    · simp [Function.comp, h]
  have hfind1 : (db.subscriptions.map (fun s =>
      if s.razorpaySubscriptionId == rid then
        { s with status := SubStatus.CANCELLED, endDate := some now }
      else s)).find? (fun s => s.razorpaySubscriptionId == rid)
        = some (if sub.razorpaySubscriptionId == rid then
            { sub with status := SubStatus.CANCELLED, endDate := some now }
          else sub) := by
    rw [List.find?_map, hpg, hsub]
    rfl
  have hsubrid : (sub.razorpaySubscriptionId == rid) = true := by
    have h := List.find?_some hsub
    simpa using h
  simp only [handleRazorpayWebhook, verifyRazorpayWebhook, Bool.not_true, Bool.false_eq_true,
    if_false, hfind1, hsubrid, if_true]

/-- State shape of the webhook handler on `subscription.activated` when a
stored subscription matches the provider id. -/
theorem handleWebhook_activated_state
    (db : DB) (now : Int) (rid : Nat) (sig : String) (sub : Subscription)
    (hsub : db.subscriptions.find? (fun s => s.razorpaySubscriptionId == rid) = some sub) :
    handleRazorpayWebhook db now { event := .activated, subscriptionId := rid } sig
      = (.ok "ok",
         { db with
            subscriptions := db.subscriptions.map (fun s =>
              if s.razorpaySubscriptionId == rid then { s with status := SubStatus.ACTIVE } else s),
            organizationAddOns := db.organizationAddOns.map (fun oa =>
              if oa.organizationId == sub.organizationId then
                { oa with isActive := true }
              else oa) }) := by
  have hpg : ((fun s : Subscription => s.razorpaySubscriptionId == rid) ∘ (fun s =>
      if s.razorpaySubscriptionId == rid then { s with status := SubStatus.ACTIVE } else s))
      = (fun s : Subscription => s.razorpaySubscriptionId == rid) := by
    funext s
    by_cases h : s.razorpaySubscriptionId = rid
    · simp [Function.comp, h]
    · simp [Function.comp, h]
  have hfind1 : (db.subscriptions.map (fun s =>
      if s.razorpaySubscriptionId == rid then { s with status := SubStatus.ACTIVE } else s)).find?
        (fun s => s.razorpaySubscriptionId == rid)
        = some (if sub.razorpaySubscriptionId == rid then
            { sub with status := SubStatus.ACTIVE } else sub) := by
    rw [List.find?_map, hpg, hsub]
    rfl
  have hsubrid : (sub.razorpaySubscriptionId == rid) = true := by
    have h := List.find?_some hsub
    simpa using h
  simp only [handleRazorpayWebhook, verifyRazorpayWebhook, Bool.not_true, Bool.false_eq_true,
    if_false, hfind1, hsubrid, if_true]

/-- C10: on `subscription.cancelled` with a matching stored subscription the
webhook answers ok and clears `isActive` on every add-on row of that
subscription's organization — all rows of the organization, not only those
bought under the subscription — while rows of other organizations and all
`usageCount` values are unchanged; `subscription.activated` symmetrically
sets `isActive` on every row of the organization. -/
theorem c10_webhook_toggles_whole_org
    (db : DB) (now : Int) (rid : Nat) (sig : String) (sub : Subscription)
    (hsub : db.subscriptions.find? (fun s => s.razorpaySubscriptionId == rid) = some sub) :
    ((handleRazorpayWebhook db now { event := .cancelled, subscriptionId := rid } sig).1
        = .ok "ok")
    ∧ ((handleRazorpayWebhook db now { event := .cancelled, subscriptionId := rid } sig).2.organizationAddOns
        = db.organizationAddOns.map (fun oa =>
            if oa.organizationId == sub.organizationId then { oa with isActive := false } else oa))
    ∧ (∀ oa ∈ (handleRazorpayWebhook db now
          { event := .cancelled, subscriptionId := rid } sig).2.organizationAddOns,
        oa.organizationId = sub.organizationId → oa.isActive = false)
    ∧ ((handleRazorpayWebhook db now
          { event := .cancelled, subscriptionId := rid } sig).2.organizationAddOns.map
            (fun oa => oa.usageCount)
        = db.organizationAddOns.map (fun oa => oa.usageCount))
    ∧ ((handleRazorpayWebhook db now
          { event := .cancelled, subscriptionId := rid } sig).2.organizationAddOns.filter
            (fun oa => !(oa.organizationId == sub.organizationId))
        = db.organizationAddOns.filter (fun oa => !(oa.organizationId == sub.organizationId)))
    ∧ ((handleRazorpayWebhook db now { event := .activated, subscriptionId := rid } sig).2.organizationAddOns
        = db.organizationAddOns.map (fun oa =>
            if oa.organizationId == sub.organizationId then { oa with isActive := true } else oa))
    ∧ (∀ oa ∈ (handleRazorpayWebhook db now
          { event := .activated, subscriptionId := rid } sig).2.organizationAddOns,
        oa.organizationId = sub.organizationId → oa.isActive = true) := by
  have hc := handleWebhook_cancelled_state db now rid sig sub hsub
  have ha := handleWebhook_activated_state db now rid sig sub hsub
  obtain ⟨hall, husage, hframe⟩ := addon_toggle_props db.organizationAddOns sub.organizationId false
  obtain ⟨hall2, -, -⟩ := addon_toggle_props db.organizationAddOns sub.organizationId true
  rw [hc, ha]
  exact ⟨rfl, rfl, hall, husage, hframe, rfl, hall2⟩

/-- Witness for C10 on `c10Db`: cancelling subscription 77 clears both of
organization 1's rows (usage counters intact) and leaves organization 2's
row active; activating sets them back. -/
theorem c10_webhook_toggles_whole_org_witness :
    (handleRazorpayWebhook c10Db 123 { event := .cancelled, subscriptionId := 77 } "sig").2.organizationAddOns
        = [{ organizationId := 1, addOnId := 1, isActive := false, usageCount := 5 },
           { organizationId := 1, addOnId := 2, isActive := false, usageCount := 7 },
           { organizationId := 2, addOnId := 1, isActive := true, usageCount := 3 }]
      ∧ (handleRazorpayWebhook c10Db 123 { event := .activated, subscriptionId := 77 } "sig").2.organizationAddOns
        = [{ organizationId := 1, addOnId := 1, isActive := true, usageCount := 5 },
           { organizationId := 1, addOnId := 2, isActive := true, usageCount := 7 },
           { organizationId := 2, addOnId := 1, isActive := true, usageCount := 3 }] := by
  obtain ⟨-, h2, -, -, -, h6, -⟩ := c10_webhook_toggles_whole_org c10Db 123 77 "sig" c10Sub rfl
  exact ⟨by rw [h2]; rfl, by rw [h6]; rfl⟩
